import Mathlib

/-!
A verification development for the platform.js user-agent parser
(src/platform.js).  The JavaScript source is shallowly embedded: strings
are lists of characters, the regular expressions actually used by the
source are compiled to a small token language (`PTok`) with a
backtracking matcher, the pattern tables are transcribed verbatim, and
the `parse` pipeline is translated stage by stage.  Host-environment
probing (navigator, java, opera, document, process, ...) is modelled as
the absent/hostless environment, which the specification treats as an
external collaborator: every probed capability is absent, so the
string-only code paths are taken (`nav = {}`, `userAgent = ""`,
`opera = null`, `java = null`, `doc = {}`).

The recursive self-invocations of `parse` (the IE Mobile 11 re-parse and
the Opera identifying/masking repair) are handled with an explicit fuel
parameter; fuel `ua.length + 3` is proved sufficient (the computation is
fuel-insensitive above an explicit linear bound), which models
termination of the source recursion.
-/

namespace PlatformJS

/-- Strings are modelled as lists of characters. -/
abbrev LC := List Char

/-- ASCII lower-casing, as performed by case-insensitive JS regexes over
the ASCII patterns occurring in the source. -/
def lowerC (c : Char) : Char :=
  if 65 ≤ c.toNat ∧ c.toNat ≤ 90 then Char.ofNat (c.toNat + 32) else c

/-- JS regex `\w`: ASCII letters, digits and underscore. -/
def isWordC (c : Char) : Bool :=
  (97 ≤ c.toNat && c.toNat ≤ 122) || (65 ≤ c.toNat && c.toNat ≤ 90) ||
  (48 ≤ c.toNat && c.toNat ≤ 57) || c == '_'

/-- JS regex `\d`. -/
def isDigitC (c : Char) : Bool := 48 ≤ c.toNat && c.toNat ≤ 57

/-- JS regex `\s` (the members relevant to ASCII input). -/
def isSpaceJS (c : Char) : Bool :=
  c == ' ' || c == '\t' || c == '\n' || c == '\r' ||
  c == '\x0b' || c == '\x0c' || c == ' '

/-- ASCII letter (JS `[a-z]` under the `i` flag). -/
def isAlphaC (c : Char) : Bool :=
  (97 ≤ c.toNat && c.toNat ≤ 122) || (65 ≤ c.toNat && c.toNat ≤ 90)

/-- Case-insensitive (when `ci`) character comparison. -/
def litMatch (ci : Bool) (p c : Char) : Bool :=
  if ci then lowerC p == lowerC c else p == c

/-- Tokens of the compiled pattern language.  They cover exactly the
regex features used by the source: literal characters, `.` (`anyc`),
`c?` (`optc`), `c+` (`plusc`), single character classes (`cls`), starred
and plus-ed classes, zero-width predicates on the remaining input
(`look`, used for lookahead `(?!...)` and the `$` anchor) and a
zero-width `mark` used to read off capture groups. -/
inductive PTok where
  | lit : Char → PTok
  | anyc : PTok
  | optc : Char → PTok
  | plusc : Char → PTok
  | cls : (Char → Bool) → PTok
  | star : (Char → Bool) → PTok
  | plus : (Char → Bool) → PTok
  | look : (LC → Bool) → PTok
  | mark : PTok

abbrev Pat := List PTok

/-- The `$` anchor as a lookahead. -/
def atEnd : PTok := .look List.isEmpty

/-- Number of leading characters satisfying `f`. -/
def countWhile (f : Char → Bool) : LC → Nat
  | [] => 0
  | c :: t => if f c then countWhile f t + 1 else 0

/-- Backtracking matcher: `matchAt ci pat s` returns the number of
characters consumed by the first (regex-order) successful match of `pat`
against a prefix of `s`, together with the offset at which a `mark`
token was crossed.  Greedy semantics with backtracking mirror the JS
regex engine on the pattern fragment in use. -/
def matchAt (ci : Bool) : Pat → LC → Option (Nat × Option Nat)
  | [], _ => some (0, none)
  | .mark :: rest, s =>
      (matchAt ci rest s).map (fun r => (r.1, some 0))
  | .lit p :: rest, c :: s =>
      if litMatch ci p c then
        (matchAt ci rest s).map (fun r => (r.1 + 1, r.2.map (· + 1)))
      else none
  | .lit _ :: _, [] => none
  | .anyc :: rest, _ :: s =>
      (matchAt ci rest s).map (fun r => (r.1 + 1, r.2.map (· + 1)))
  | .anyc :: _, [] => none
  | .cls f :: rest, c :: s =>
      if f c then
        (matchAt ci rest s).map (fun r => (r.1 + 1, r.2.map (· + 1)))
      else none
  | .cls _ :: _, [] => none
  | .optc p :: rest, s =>
      (match s with
       | c :: s' =>
         if litMatch ci p c then
           match matchAt ci rest s' with
           | some r => some (r.1 + 1, r.2.map (· + 1))
           | none => matchAt ci rest s
         else matchAt ci rest s
       | [] => matchAt ci rest [])
  | .plusc p :: rest, s =>
      let k := countWhile (fun c => litMatch ci p c) s
      if k = 0 then none else
        ((List.range k).map (· + 1)).reverse.findSome? (fun i =>
          (matchAt ci rest (s.drop i)).map
            (fun r => (r.1 + i, r.2.map (· + i))))
  | .star f :: rest, s =>
      let k := countWhile f s
      (List.range (k + 1)).reverse.findSome? (fun i =>
        (matchAt ci rest (s.drop i)).map
          (fun r => (r.1 + i, r.2.map (· + i))))
  | .plus f :: rest, s =>
      let k := countWhile f s
      if k = 0 then none else
        ((List.range k).map (· + 1)).reverse.findSome? (fun i =>
          (matchAt ci rest (s.drop i)).map
            (fun r => (r.1 + i, r.2.map (· + i))))
  | .look g :: rest, s =>
      if g s then matchAt ci rest s else none

/-- JS `\b` between a previous character (none at the string edge) and a
next character. -/
def boundary (prev next : Option Char) : Bool :=
  (match prev with | some c => isWordC c | none => false) ≠
  (match next with | some c => isWordC c | none => false)

/-- Try the alternatives of a pattern at one position.  `wb1` demands a
word boundary before the match, `wb2` one after it. -/
def tryHere (ci wb1 wb2 : Bool) (alts : List Pat) (prev : Option Char)
    (t : LC) : Option (Nat × Option Nat) :=
  if wb1 && !(boundary prev t.head?) then none else
    alts.findSome? (fun a =>
      match matchAt ci a t with
      | some (n, mk) =>
        if wb2 then
          if boundary ((t.take n).getLast?.orElse (fun _ => prev))
              ((t.drop n).head?) then some (n, mk) else none
        else some (n, mk)
      | none => none)

/-- Leftmost-position scan.  Returns `(start, length, mark offset)`. -/
def searchGo (ci wb1 wb2 : Bool) (alts : List Pat) :
    Option Char → Nat → LC → Option (Nat × Nat × Option Nat)
  | prev, pos, [] =>
      match tryHere ci wb1 wb2 alts prev [] with
      | some (n, mk) => some (pos, n, mk)
      | none => none
  | prev, pos, c :: t =>
      match tryHere ci wb1 wb2 alts prev (c :: t) with
      | some (n, mk) => some (pos, n, mk)
      | none => searchGo ci wb1 wb2 alts (some c) (pos + 1) t

/-- A compiled regular expression: flags plus alternatives. -/
structure Re where
  ci : Bool
  wb1 : Bool
  wb2 : Bool
  alts : List Pat

def Re.search (r : Re) (s : LC) : Option (Nat × Nat × Option Nat) :=
  searchGo r.ci r.wb1 r.wb2 r.alts none 0 s

def Re.test (r : Re) (s : LC) : Bool := (r.search s).isSome

/-- The text of the first match. -/
def Re.text (r : Re) (s : LC) : Option LC :=
  (r.search s).map (fun (st, n, _) => (s.drop st).take n)

/-- The text from the `mark` token to the end of the first match
(reads off a trailing capture group). -/
def Re.capture (r : Re) (s : LC) : Option LC :=
  match r.search s with
  | some (st, n, some k) => some ((s.drop (st + k)).take (n - k))
  | _ => none

/-- The text from the start of the match up to the `mark` token
(reads off a leading capture group). -/
def Re.preCapture (r : Re) (s : LC) : Option LC :=
  match r.search s with
  | some (st, _, some k) => some ((s.drop st).take k)
  | _ => none

/-- `String.prototype.replace` with a regex and a plain replacement:
only the first match is replaced. -/
def Re.replace1 (r : Re) (s repl : LC) : LC :=
  match r.search s with
  | some (st, n, _) => s.take st ++ repl ++ s.drop (st + n)
  | none => s

/-- Global regex replace, fueled by the input length (each replaced
match is nonempty for every use in the source). -/
def replaceAllGo (r : Re) (repl : LC) : Nat → LC → LC
  | 0, s => s
  | f + 1, s =>
    match r.search s with
    | some (st, n, _) =>
        if n = 0 then s else
          s.take st ++ repl ++ replaceAllGo r repl f (s.drop (st + n))
    | none => s

def Re.replaceAll (r : Re) (s repl : LC) : LC :=
  replaceAllGo r repl s.length s

/-- Literal compilation of a plain string (used for the pattern pieces
that contain no metacharacters). -/
def lits (s : String) : Pat := s.data.map .lit

/-- `qualify` (source line 212): hyphens and spaces become optional,
except in final position; all other characters are literals. -/
def qualifyPat : LC → Pat
  | [] => []
  | [c] => [.lit c]
  | c :: t =>
      (if c == ' ' || c == '-' then PTok.optc c else PTok.lit c) ::
        qualifyPat t

/-- Compile one alternative of a table pattern: `.` is the wildcard,
`(`/`)` delimit (transparent) groups, `x?` and `x+` quantify the
previous literal; everything else is literal.  This covers every
metacharacter occurring in the source tables. -/
def compileAlt : LC → Pat
  | [] => []
  | '(' :: t => compileAlt t
  | ')' :: t => compileAlt t
  | '.' :: t => PTok.anyc :: compileAlt t
  | c :: '?' :: t => PTok.optc c :: compileAlt t
  | c :: '+' :: t => PTok.plusc c :: compileAlt t
  | c :: t => PTok.lit c :: compileAlt t

/-- Split the body of a `(?:a|b|c)` group on `|` (the table patterns
have no nested alternations). -/
def splitBar (acc : LC) : LC → List LC
  | [] => [acc.reverse]
  | '|' :: t => acc.reverse :: splitBar [] t
  | c :: t => splitBar (c :: acc) t

/-- Compile a table pattern to its list of alternatives. -/
def compileRx (s : String) : List Pat :=
  let cs := s.data
  if cs.take 3 = ['(', '?', ':'] ∧ cs.getLast? = some ')' then
    (splitBar [] ((cs.drop 3).dropLast)).map compileAlt
  else
    [compileAlt cs]

/-- One entry of a guess table: a label, the raw pattern text, and
whether the entry was a bare string (whose pattern is itself,
`qualify`-ed). -/
structure Guess where
  label : String
  pattern : String
  auto : Bool
deriving DecidableEq, Repr

/-- Bare-string table entry. -/
def gs (s : String) : Guess := ⟨s, s, true⟩

/-- `{label, pattern}` table entry. -/
def gl (label pattern : String) : Guess := ⟨label, pattern, false⟩

/-- The compiled alternatives of a guess's pattern. -/
def Guess.pats (g : Guess) : List Pat :=
  if g.auto then [qualifyPat g.pattern.data] else compileRx g.pattern

end PlatformJS

namespace PlatformJS

/-- Replace the first match with the part of the match before `mark`
(implements a `'$1'` replacement whose group ends at the mark). -/
def Re.replaceKeepPre (r : Re) (s : LC) : LC :=
  match r.search s with
  | some (st, n, some k) => s.take st ++ (s.drop st).take k ++ s.drop (st + n)
  | _ => s

/-- Replace the first match with the part of the match after `mark`
(implements a `'$1'` replacement whose group starts at the mark). -/
def Re.replaceKeepCapture (r : Re) (s : LC) : LC :=
  match r.search s with
  | some (st, n, some k) =>
      s.take st ++ ((s.drop (st + k)).take (n - k)) ++ s.drop (st + n)
  | _ => s

/-- First occurrence of a literal substring (JS `indexOf`). -/
def indexOfLit (pat : LC) : LC → Option Nat
  | [] => if pat = [] then some 0 else none
  | c :: t =>
      if pat.isPrefixOf (c :: t) then some 0
      else (indexOfLit pat t).map (· + 1)

def containsLit (s pat : LC) : Bool := (indexOfLit pat s).isSome

/-- JS `replace` with a literal string pattern: first occurrence only. -/
def replaceFirstLit (s pat repl : LC) : LC :=
  match indexOfLit pat s with
  | some i => s.take i ++ repl ++ s.drop (i + pat.length)
  | none => s

/-- `trim` (source line 239): strips space characters only. -/
def trimJS (s : LC) : LC :=
  ((s.dropWhile (· == ' ')).reverse.dropWhile (· == ' ')).reverse

def upperC (c : Char) : Char :=
  if 97 ≤ c.toNat ∧ c.toNat ≤ 122 then Char.ofNat (c.toNat - 32) else c

/-- `capitalize` (source line 65). -/
def capitalizeJS : LC → LC
  | [] => []
  | c :: t => upperC c :: t

/-- `format` (source line 154): trim, and capitalize unless the string
starts with `webOS`, `iOS` or `iP`. -/
def formatJS (s : LC) : LC :=
  let t := trimJS s
  if "webOS".data.isPrefixOf t ∨ "iOS".data.isPrefixOf t ∨
      "iP".data.isPrefixOf t then t
  else capitalizeJS t

/-- Case-insensitive prefix test (anchored `/^.../i`). -/
def startsWithCI (pre : String) (s : LC) : Bool :=
  (matchAt true (lits pre) s).isSome

/-- The part before the first occurrence of a separator
(JS `split(sep)[0]`). -/
def splitFirst (sep : String) (s : LC) : LC :=
  match indexOfLit sep.data s with
  | some i => s.take i
  | none => s

/-- All parts of a `split` on one character. -/
def splitChar (c : Char) : LC → List LC
  | [] => [[]]
  | d :: t =>
      if d == c then [] :: splitChar c t
      else
        match splitChar c t with
        | [] => [[d]]
        | p :: ps => (d :: p) :: ps

def isDigitDot (c : Char) : Bool := isDigitC c || c == '.'

/-- Trailing run of characters satisfying `f` (the match of an
end-anchored `[...]+$`). -/
def trailingRun (f : Char → Bool) (s : LC) : LC :=
  (s.reverse.takeWhile f).reverse

/-- Windows marketing-name lookup table (source lines 82-95). -/
def winVersionTable : List (String × String) := [
  ("10.0", "10"),
  ("6.4", "10 Technical Preview"),
  ("6.3", "8.1"),
  ("6.2", "8"),
  ("6.1", "Server 2008 R2 / 7"),
  ("6.0", "Server 2008 / Vista"),
  ("5.2", "Server 2003 / XP 64-bit"),
  ("5.1", "XP"),
  ("5.01", "2000 SP1"),
  ("5.0", "2000"),
  ("4.0", "NT"),
  ("4.90", "ME")]

/-- `cleanupOS` (source lines 78-125).  `pats` is the compiled pattern
of the matching guess and `label` its label; both are always supplied by
`getOS`. -/
def cleanupOS (os0 : LC) (pats : List Pat) (label : String) : LC :=
  -- Detect Windows version from platform tokens.
  let key := trailingRun isDigitDot os0
  let lookup := (winVersionTable.find? (fun e => e.1.data == key)).map (·.2)
  let os1 :=
    if startsWithCI "Win" os0 ∧ ¬startsWithCI "Windows Phone " os0 ∧
        lookup.isSome then
      "Windows ".data ++ (lookup.getD "").data
    else os0
  -- os.replace(RegExp(pattern, 'i'), label)
  let os2 := (Re.mk true false false pats).replace1 os1 label.data
  -- the cleanup chain
  let c1 := (Re.mk true false false [[.lit ' ', .lit 'c', .lit 'e', atEnd]]).replace1 os2 " CE".data
  let c2 := (Re.mk true true false [lits "hpw"]).replace1 c1 "web".data
  let c3 := (Re.mk false true true [lits "Macintosh"]).replace1 c2 "Mac OS".data
  let c4 := (Re.mk true false true [lits "_PowerPC"]).replace1 c3 " OS".data
  let c5 := (Re.mk true true false
    [lits "OS X" ++ [.mark, .lit ' ',
      .plus (fun c => !(c == ' ' || isDigitC c))]]).replaceKeepPre c4
  let c6 := (Re.mk false true true
    [lits "Mac " ++ [.mark] ++ lits "OS X"]).replaceKeepCapture c5
  let c7 :=
    match (Re.mk false false false [[.lit '/', .mark, .cls isDigitC]]).search c6 with
    | some (st, n, some k) =>
        c6.take st ++ [' '] ++ ((c6.drop (st + k)).take (n - k)) ++
          c6.drop (st + n)
    | _ => c6
  let c8 := c7.map (fun c => if c == '_' then '.' else c)
  let c9 := (Re.mk true false false
    [lits " BePC" ++ [atEnd],
     [.star (fun c => c == ' ' || c == '.'), .lit 'f', .lit 'c',
      .plus (fun c => c == ' ' || isDigitDot c), atEnd]]).replace1 c8 []
  let c10 := (Re.mk true true true
    [[.lit 'x', .lit '8', .lit '6', .lit '.', .lit '6', .lit '4']]).replaceAll c9 "x86_64".data
  let c11 := (Re.mk false true true
    [lits "Windows Phone" ++ [.mark] ++ lits " OS"]).replaceKeepPre c10
  let c12 := (Re.mk false true true
    [lits "Chrome OS " ++ [.plus isWordC, .mark, .lit ' ',
      .plus isDigitDot]]).replaceKeepPre c11
  formatJS (splitFirst " on " c12)

end PlatformJS

namespace PlatformJS

def layoutGuesses : List Guess := [
  gl "EdgeHTML" "Edge",
  gs "Trident",
  gl "WebKit" "AppleWebKit",
  gs "iCab",
  gs "Presto",
  gs "NetFront",
  gs "Tasman",
  gs "KHTML",
  gs "Gecko"
]

def nameGuesses : List Guess := [
  gs "Adobe AIR",
  gs "Arora",
  gs "Avant Browser",
  gs "Breach",
  gs "Camino",
  gs "Electron",
  gs "Epiphany",
  gs "Fennec",
  gs "Flock",
  gs "Galeon",
  gs "GreenBrowser",
  gs "iCab",
  gs "Iceweasel",
  gs "K-Meleon",
  gs "Konqueror",
  gs "Lunascape",
  gs "Maxthon",
  gl "Microsoft Edge" "(?:Edge|Edg|EdgA|EdgiOS)",
  gs "Midori",
  gs "Nook Browser",
  gs "PaleMoon",
  gs "PhantomJS",
  gs "Raven",
  gs "Rekonq",
  gs "RockMelt",
  gl "Samsung Internet" "SamsungBrowser",
  gs "SeaMonkey",
  gl "Silk" "(?:Cloud9|Silk-Accelerated)",
  gs "Sleipnir",
  gs "SlimBrowser",
  gl "SRWare Iron" "Iron",
  gs "Sunrise",
  gs "Swiftfox",
  gs "Vivaldi",
  gs "Waterfox",
  gs "WebPositive",
  gl "Yandex Browser" "YaBrowser",
  gl "UC Browser" "UCBrowser",
  gs "Opera Mini",
  gl "Opera Mini" "OPiOS",
  gs "Opera",
  gl "Opera" "OPR",
  gs "Chromium",
  gs "Chrome",
  gl "Chrome" "(?:HeadlessChrome)",
  gl "Chrome Mobile" "(?:CriOS|CrMo)",
  gl "Firefox" "(?:Firefox|Minefield)",
  gl "Firefox for iOS" "FxiOS",
  gl "IE" "IEMobile",
  gl "IE" "MSIE",
  gs "Safari"
]

def productGuesses : List Guess := [
  gl "BlackBerry" "BB10",
  gs "BlackBerry",
  gl "Galaxy S" "GT-I9000",
  gl "Galaxy S2" "GT-I9100",
  gl "Galaxy S3" "GT-I9300",
  gl "Galaxy S4" "GT-I9500",
  gl "Galaxy S5" "SM-G900",
  gl "Galaxy S6" "SM-G920",
  gl "Galaxy S7" "SM-G930",
  gl "Galaxy S7 Edge" "SM-G935",
  gl "Asus ROG Phone 3" "ASUS_I003D",
  gl "Asus ROG Phone 5" "ASUS_I005D",
  gl "Asus ROG Phone 5" "ASUS_I005DA",
  gl "Asus Zenfone 6" "ASUS_I01WD",
  gl "Asus Zenfone 7 Pro" "ASUS_I002D",
  gl "Asus Zenfone 8" "ASUS_I006D",
  gl "Asus Zenfone 8 Flip" "ASUS_I004D",
  gl "Asus Zenfone 9" "ASUS_AI2202",
  gl "Infinix Note 12" "Infinix X670",
  gl "LG V60 ThinQ 5G" "LM-V600",
  gl "LG Velvet 5G" "LM-G900",
  gl "Motorola Edge" "motorola edge",
  gl "Motorola Edge 20" "motorola edge 20",
  gl "Motorola Edge 20 Lite" "motorola edge 20 lite",
  gl "Motorola Edge 20 Pro" "motorola edge 20 pro",
  gl "Motorola Edge 30" "motorola edge 30",
  gl "Motorola G 8" "moto g(8)",
  gl "Motorola G 8 Power" "moto g(8) power",
  gl "Motorola G 9 Play" "moto g(9) play",
  gl "Motorola G Stylus" "moto g stylus",
  gl "Motorola Moto G Pro" "moto g pro",
  gl "Motorola Moto G100" "moto g(100)",
  gl "Motorola Moto G200 5G" "moto g200 5G",
  gl "Motorola Moto G22" "moto g22",
  gl "Motorola Moto G30" "moto g(30)",
  gl "Motorola Moto G50" "moto g(50)",
  gl "Motorola Moto G50 5G" "moto g(50) 5G",
  gl "Motorola Moto G52" "moto g52",
  gl "Motorola Moto G60" "moto g(60)",
  gl "Motorola Moto G62 5G" "moto g62 5G",
  gl "Motorola Moto G71 5G" "moto g71 5G",
  gl "Motorola One 5G UW Ace" "motorola one 5G UW ace",
  gl "Motorola One Action" "motorola one action",
  gl "Nokia 2.4" "Nokia 2.4",
  gl "Nokia 3.2" "Nokia 3.2",
  gl "Nokia 3.4" "Nokia 3.4",
  gl "Nokia 4.2" "Nokia 4.2",
  gl "Nokia 5.4" "Nokia 5.4",
  gl "Nokia 8.3" "Nokia 8.3 5G",
  gl "Nokia 8.3 5G" "Nokia 8.3 5G",
  gl "Nokia G10" "Nokia G10",
  gl "Nokia G20" "Nokia G20",
  gl "Nokia G50" "Nokia G50",
  gl "Nokia X10" "Nokia X10",
  gl "Nokia X20" "Nokia X20",
  gl "Nokia XR20" "Nokia XR20",
  gl "OnePlus 10 Pro" "NE2213",
  gl "OnePlus 10 Pro" "NE2215",
  gl "OnePlus 10T" "CPH2415",
  gl "OnePlus 11" "CPH2449",
  gl "OnePlus 7" "GM1903",
  gl "OnePlus 7" "GM1900",
  gl "OnePlus 7 Pro" "GM1917",
  gl "OnePlus 7 Pro" "GM1913",
  gl "OnePlus 7 Pro" "GM1910",
  gl "OnePlus 7T" "HD1903",
  gl "OnePlus 7T" "HD1900",
  gl "OnePlus 7T Pro" "HD1913",
  gl "OnePlus 7T Pro" "HD1910",
  gl "OnePlus 8" "IN2013",
  gl "OnePlus 8" "IN2011",
  gl "OnePlus 8" "IN2010",
  gl "OnePlus 8 Pro" "IN2023",
  gl "OnePlus 8 Pro" "IN2025",
  gl "OnePlus 8 Pro" "IN2020",
  gl "OnePlus 8T" "KB2005",
  gl "OnePlus 8T" "KB2003",
  gl "OnePlus 8T" "KB2001",
  gl "OnePlus 8T" "KB2000",
  gl "OnePlus 9" "LE2115",
  gl "OnePlus 9" "LE2113",
  gl "OnePlus 9" "LE2111",
  gl "OnePlus 9 Pro" "LE2125",
  gl "OnePlus 9 Pro" "LE2123",
  gl "OnePlus 9 Pro" "LE2121",
  gl "OnePlus 9R" "LE2101",
  gl "OnePlus Nord" "AC2003",
  gl "OnePlus Nord" "AC2001",
  gl "OnePlus Nord 2 5G" "DN2103",
  gl "OnePlus Nord 2 5G" "DN2101",
  gl "OnePlus Nord 2T" "CPH2399",
  gl "OnePlus Nord CE 2 Lite 5G" "CPH2409",
  gl "OnePlus Nord CE 5G" "EB2103",
  gl "Oppo A16" "CPH2269",
  gl "Oppo A16s" "CPH2271",
  gl "Oppo A52" "CPH2069",
  gl "Oppo A53" "CPH2127",
  gl "Oppo A53s" "CPH2135",
  gl "Oppo A54 5G" "CPH2195",
  gl "Oppo A54s" "CPH2273",
  gl "Oppo A72" "CPH2067",
  gl "Oppo A73 5G" "CPH2161",
  gl "Oppo A74 5G" "CPH2197",
  gl "Oppo A76" "CPH2375",
  gl "Oppo A77" "CPH2339",
  gl "Oppo A9" "CPH1941",
  gl "Oppo A91" "CPH2021",
  gl "Oppo A94" "CPH2203",
  gl "Oppo A94 5G" "CPH2211",
  gl "Oppo A95" "CPH2365",
  gl "Oppo A96" "CPH2333",
  gl "Oppo F17" "CPH2095",
  gl "Oppo F17 Pro" "CPH2119",
  gl "Oppo F19" "CPH2219",
  gl "Oppo F19 Pro" "CPH2285",
  gl "Oppo F21 Pro" "CPH2461",
  gl "Oppo F21 Pro" "CPH2363",
  gl "Oppo Find X2 Lite" "CPH2005",
  gl "Oppo Find X2 Neo" "CPH2009",
  gl "Oppo Find X2 Pro" "CPH2025",
  gl "Oppo Find X3 Lite" "CPH2145",
  gl "Oppo Find X3 Neo" "CPH2207",
  gl "Oppo Find X3 Pro" "CPH2173",
  gl "Oppo Find X5" "CPH2307",
  gl "Oppo Find X5 Pro" "CPH2305",
  gl "Oppo K10" "CPH2373",
  gl "Oppo K10 5G" "CPH2337",
  gl "Oppo Reno" "CPH1917",
  gl "Oppo Reno2" "CPH1907",
  gl "Oppo Reno2 Z" "CPH1951",
  gl "Oppo Reno3" "CPH2043",
  gl "Oppo Reno4" "CPH2113",
  gl "Oppo Reno4 5G" "CPH2091",
  gl "Oppo Reno4 Lite" "CPH2125",
  gl "Oppo Reno4 Pro" "CPH2109",
  gl "Oppo Reno4 Pro 5G" "CPH2089",
  gl "Oppo Reno4 Z 5G" "CPH2065",
  gl "Oppo Reno5 4G" "CPH2159",
  gl "Oppo Reno5 5G" "CPH2145",
  gl "Oppo Reno5 Lite" "CPH2205",
  gl "Oppo Reno6 5G" "CPH2251",
  gl "Oppo Reno6 Pro 5G" "CPH2247",
  gl "Oppo Reno6 Z" "CPH2237",
  gl "Oppo Reno7" "CPH2363",
  gl "Oppo Reno7 5G" "CPH2371",
  gl "Oppo Reno7 Pro 5G" "CPH2293",
  gl "Oppo Reno7 Z 5G" "CPH2343",
  gl "Oppo Reno8" "CPH2359",
  gl "Oppo Reno8 Pro" "CPH2357",
  gl "Pixel 3" "Pixel 3",
  gl "Pixel 3 XL" "Pixel 3 XL",
  gl "Pixel 3a" "Pixel 3a",
  gl "Pixel 3a XL" "Pixel 3a XL",
  gl "Pixel 4" "Pixel 4",
  gl "Pixel 4 XL" "Pixel 4 XL",
  gl "Pixel 4a" "Pixel 4a",
  gl "Pixel 4a (5G)" "Pixel 4a (5G)",
  gl "Pixel 5" "Pixel 5",
  gl "Pixel 5a" "Pixel 5a",
  gl "Pixel 6" "Pixel 6",
  gl "Pixel 6 Pro" "Pixel 6 Pro",
  gl "Pixel 6a" "Pixel 6a",
  gl "Pixel 7" "Pixel 7",
  gl "Pixel 7 Pro" "Pixel 7 Pro",
  gl "Realme 6" "RMX2001",
  gl "Realme 6 Pro" "RMX2063",
  gl "Realme 7 5G" "RMX2111",
  gl "Realme 7 Pro" "RMX2170",
  gl "Realme 8" "RMX3085",
  gl "Realme 8 5G" "RMX3241",
  gl "Realme 8 Pro" "RMX3081",
  gl "Realme 8i" "RMX3151",
  gl "Realme 9" "RMX3521",
  gl "Realme 9 Pro" "RMX3472",
  gl "Realme 9 Pro+" "RMX3393",
  gl "Realme 9 Pro+" "RMX3392",
  gl "Realme C21" "RMX3201",
  gl "Realme C25" "RMX3191",
  gl "Realme C25s" "RMX3195",
  gl "Realme GT 5G" "RMX2202",
  gl "Realme GT Master" "RMX3363",
  gl "Realme GT Master" "RMX3360",
  gl "Realme GT Neo 3" "RMX3561",
  gl "Realme GT Neo 3 150W" "RMX3563",
  gl "Realme GT Neo2" "RMX3370",
  gl "Realme GT2" "RMX3311",
  gl "Realme GT2 Pro" "RMX3301",
  gl "Realme Narzo 30 5G" "RMX3242",
  gl "Realme Narzo 50 5G" "RMX3572",
  gl "Realme X2 Pro" "RMX1931",
  gl "Realme X50 Pro 5G" "RMX2075",
  gl "Realme X7 Pro" "RMX2121",
  gl "Samsung Galaxy A02s" "SM-A025F",
  gl "Samsung Galaxy A03" "SM-A035F",
  gl "Samsung Galaxy A03s" "SM-A037F",
  gl "Samsung Galaxy A03s" "SM-A037G",
  gl "Samsung Galaxy A04s" "SM-A047F",
  gl "Samsung Galaxy A12" "SM-A125F",
  gl "Samsung Galaxy A12 Nacho" "SM-A127F",
  gl "Samsung Galaxy A13" "SM-A135F",
  gl "Samsung Galaxy A13 5G" "SM-A136B",
  gl "Samsung Galaxy A13 5G" "SM-A136U",
  gl "Samsung Galaxy A137" "SM-A137F",
  gl "Samsung Galaxy A14 5G" "SM-A146U",
  gl "Samsung Galaxy A21s" "SM-A217F",
  gl "Samsung Galaxy A22" "SM-A225F",
  gl "Samsung Galaxy A22 5G" "SM-A226B",
  gl "Samsung Galaxy A23" "SM-A235F",
  gl "Samsung Galaxy A23" "SM-A235M",
  gl "Samsung Galaxy A23 5G" "SM-A236B",
  gl "Samsung Galaxy A31" "SM-A315F",
  gl "Samsung Galaxy A32" "SM-A325F",
  gl "Samsung Galaxy A32 5G" "SM-A326B",
  gl "Samsung Galaxy A33 5G" "SM-A336B",
  gl "Samsung Galaxy A40" "SM-A405FN",
  gl "Samsung Galaxy A41" "SM-A415F",
  gl "Samsung Galaxy A42 5G" "SM-A426B",
  gl "Samsung Galaxy A51" "SM-A515F",
  gl "Samsung Galaxy A51 5G" "SM-A516B",
  gl "Samsung Galaxy A52" "SM-A525F",
  gl "Samsung Galaxy A52 5G" "SM-A526B",
  gl "Samsung Galaxy A52s 5G" "SM-A528B",
  gl "Samsung Galaxy A53 5G" "SM-A536B",
  gl "Samsung Galaxy A70" "SM-A705FN",
  gl "Samsung Galaxy A71" "SM-A715F",
  gl "Samsung Galaxy A72" "SM-A725F",
  gl "Samsung Galaxy A73 5G" "SM-A736B",
  gl "Samsung Galaxy A90 5G" "SM-A908B",
  gl "Samsung Galaxy F13" "SM-E135F",
  gl "Samsung Galaxy F22" "SM-E225F",
  gl "Samsung Galaxy F23" "SM-E236B",
  gl "Samsung Galaxy F62" "SM-E625F",
  gl "Samsung Galaxy M11" "SM-M115F",
  gl "Samsung Galaxy M12" "SM-M127F",
  gl "Samsung Galaxy M13" "SM-M135F",
  gl "Samsung Galaxy M21" "SM-M215F",
  gl "Samsung Galaxy M21s" "SM-F415F",
  gl "Samsung Galaxy M22" "SM-M225FV",
  gl "Samsung Galaxy M23" "SM-M236B",
  gl "Samsung Galaxy M31" "SM-M315F",
  gl "Samsung Galaxy M31s" "SM-M317F",
  gl "Samsung Galaxy M32" "SM-M325F",
  gl "Samsung Galaxy M32" "SM-M325FV",
  gl "Samsung Galaxy M33" "SM-M336B",
  gl "Samsung Galaxy M51" "SM-M515F",
  gl "Samsung Galaxy M52 5G" "SM-M526B",
  gl "Samsung Galaxy M53" "SM-M536B",
  gl "Samsung Galaxy M62" "SM-M625F",
  gl "Samsung Galaxy Note 10" "SM-N970F",
  gl "Samsung Galaxy Note 10+" "SM-N975F",
  gl "Samsung Galaxy Note 10+ 5G" "SM-N976B",
  gl "Samsung Galaxy Note10" "SM-N970F",
  gl "Samsung Galaxy Note10 5G" "SM-N971U",
  gl "Samsung Galaxy Note10 Lite" "SM-N770F",
  gl "Samsung Galaxy Note10+" "SM-N975F",
  gl "Samsung Galaxy Note10+ 5G" "SM-N976B",
  gl "Samsung Galaxy Note20" "SM-N980F",
  gl "Samsung Galaxy Note20 5G" "SM-N981B",
  gl "Samsung Galaxy Note20 Ultra" "SM-N985F",
  gl "Samsung Galaxy Note20 Ultra 5G" "SM-N986B",
  gl "Samsung Galaxy S10" "SM-G973F",
  gl "Samsung Galaxy S10 5G" "SM-G977B",
  gl "Samsung Galaxy S10 Lite" "SM-G770F",
  gl "Samsung Galaxy S10+" "SM-G975F",
  gl "Samsung Galaxy S10e" "SM-G970F",
  gl "Samsung Galaxy S20" "SM-G980F",
  gl "Samsung Galaxy S20 5G" "SM-G981B",
  gl "Samsung Galaxy S20 FE" "SM-G780F",
  gl "Samsung Galaxy S20 FE 5G" "SM-G781B",
  gl "Samsung Galaxy S20 Ultra" "SM-G988B",
  gl "Samsung Galaxy S20 Ultra 5G" "SM-G988B",
  gl "Samsung Galaxy S20+" "SM-G985F",
  gl "Samsung Galaxy S20+ 5G" "SM-G986B",
  gl "Samsung Galaxy S21 5G" "SM-G991B",
  gl "Samsung Galaxy S21 FE 5G" "SM-G990B",
  gl "Samsung Galaxy S21 Ultra 5G" "SM-G998B",
  gl "Samsung Galaxy S21+ 5G" "SM-G996B",
  gl "Samsung Galaxy S22 5G" "SM-S901B",
  gl "Samsung Galaxy S22 Ultra 5G" "SM-S908B",
  gl "Samsung Galaxy S22+ 5G" "SM-S906B",
  gl "Samsung Galaxy S23" "SM-S911B",
  gl "Samsung Galaxy S23 Ultra" "SM-S918B",
  gl "Samsung Galaxy S23+" "SM-S916B",
  gl "Samsung Galaxy Tab A 10.1 LTE" "SM-T515",
  gl "Samsung Galaxy Tab A 10.1 WIFI" "SM-T510",
  gl "Samsung Galaxy Tab A 8.0 & S Pen LTE" "SM-P205",
  gl "Samsung Galaxy Tab A 8.0 & S Pen WIFI" "SM-P200",
  gl "Samsung Galaxy Tab A 8.0 LTE" "SM-T295",
  gl "Samsung Galaxy Tab A 8.0 WIFI" "SM-T290",
  gl "Samsung Galaxy Tab A 8.4" "SM-T307U",
  gl "Samsung Galaxy Tab A7 10.4 LTE" "SM-T505",
  gl "Samsung Galaxy Tab A7 10.4 WIFI" "SM-T500",
  gl "Samsung Galaxy Tab A7 Lite LTE" "SM-T225",
  gl "Samsung Galaxy Tab A7 Lite WIFI" "SM-T220",
  gl "Samsung Galaxy Tab A8 10.5 (2021) LTE" "SM-X205",
  gl "Samsung Galaxy Tab A8 10.5 (2021) WIFI" "SM-X200",
  gl "Samsung Galaxy Tab Active3" "SM-T575",
  gl "Samsung Galaxy Tab S5e LTE" "SM-T725",
  gl "Samsung Galaxy Tab S5e WIFI" "SM-T720",
  gl "Samsung Galaxy Tab S6 Lite (2022) LTE" "SM-P619",
  gl "Samsung Galaxy Tab S6 Lite (2022) WIFI" "SM-P613",
  gl "Samsung Galaxy Tab S6 Lite LTE" "SM-P615",
  gl "Samsung Galaxy Tab S6 Lite WIFI" "SM-P610",
  gl "Samsung Galaxy Tab S6 LTE" "SM-T865",
  gl "Samsung Galaxy Tab S6 WIFI" "SM-T860",
  gl "Samsung Galaxy Tab S7 5G" "SM-T876B",
  gl "Samsung Galaxy Tab S7 FE 5G" "SM-T736B",
  gl "Samsung Galaxy Tab S7 FE WIFI" "SM-T733",
  gl "Samsung Galaxy Tab S7 LTE" "SM-T875",
  gl "Samsung Galaxy Tab S7 WIFI" "SM-T870",
  gl "Samsung Galaxy Tab S7+ 5G" "SM-T976B",
  gl "Samsung Galaxy Tab S7+ WIFI" "SM-T970",
  gl "Samsung Galaxy Tab S8 5G" "SM-X706B",
  gl "Samsung Galaxy Tab S8 Ultra 5G" "SM-X906",
  gl "Samsung Galaxy Tab S8 Ultra WIFI" "SM-X900",
  gl "Samsung Galaxy Tab S8 WIFI" "SM-X700",
  gl "Samsung Galaxy Tab S8+ 5G" "SM-X806B",
  gl "Samsung Galaxy Tab S8+ WIFI" "SM-X800",
  gl "Samsung Galaxy Xcover6 Pro" "SM-G736B",
  gl "Sony Xperia 1" "J9110",
  gl "Sony Xperia 1 II" "XQ-AT52",
  gl "Sony Xperia 1 II" "XQ-AT51",
  gl "Sony Xperia 1 III" "XQ-BC52",
  gl "Sony Xperia 1 III" "XQ-BC72",
  gl "Sony Xperia 1 IV" "XQ-CT54",
  gl "Sony Xperia 10 II" "XQ-AU52",
  gl "Sony Xperia 10 II" "XQ-AU51",
  gl "Sony Xperia 10 III" "XQ-BT52",
  gl "Sony Xperia 10 IV" "XQ-CC54",
  gl "Sony Xperia 5" "J9210",
  gl "Sony Xperia 5 II" "XQ-AS72",
  gl "Sony Xperia 5 II" "XQ-AS52",
  gl "Sony Xperia 5 III" "XQ-BQ72",
  gl "Sony Xperia 5 III" "XQ-BQ52",
  gl "Sony Xperia 5 IV" "XQ-CQ54",
  gl "Vivo S1" "vivo 1907",
  gl "Vivo S1 Pro" "vivo 1920",
  gl "Vivo V17 Pro" "vivo 1909",
  gl "Vivo V20" "V2025",
  gl "Vivo V20 Pro" "vivo 2018",
  gl "Vivo V20 SE" "V2023",
  gl "Vivo V21" "V2066",
  gl "Vivo V21 5G" "V2050",
  gl "Vivo V21e" "V2061",
  gl "Vivo V23 5G" "V2130",
  gl "Vivo X50 5G" "vivo 2005",
  gl "Vivo X50 Pro" "vivo 2006",
  gl "Vivo X60 Pro" "V2046",
  gl "Vivo X70 Pro" "V2105",
  gl "Vivo X70 Pro+" "V2145A",
  gl "Vivo X80 Pro" "V2145",
  gl "Vivo Y15s" "V2120",
  gl "Vivo Y19" "vivo 1915",
  gl "Vivo Y20G" "V2037",
  gl "Vivo Y21" "V2111",
  gl "Vivo Y21s" "V2110",
  gl "Vivo Y31" "V2036",
  gl "Vivo Y33s" "V2109",
  gl "Vivo Y52 5G" "V2053",
  gl "Vivo Y53s" "V2058",
  gl "Vivo Y55 5G" "V2127",
  gl "Vivo Y72 5G" "V2041",
  gl "Vivo Y76 5G" "V2124",
  gl "Xiaomi 11 Lite 5G NE" "2109119DG",
  gl "Xiaomi 11T" "21081111RG",
  gl "Xiaomi 11T Pro" "2107113SG",
  gl "Xiaomi 12" "2201123G",
  gl "Xiaomi 12 Lite" "2203129G",
  gl "Xiaomi 12 Pro" "2201122G",
  gl "Xiaomi 12T" "22071212AG",
  gl "Xiaomi 12T Pro" "22081212UG",
  gl "Xiaomi Mi 10" "Mi 10",
  gl "Xiaomi Mi 10 Lite 5G" "M2002J9G",
  gl "Xiaomi Mi 10T 5G" "M2007J3SY",
  gl "Xiaomi Mi 10T Lite 5G" "M2007J17G",
  gl "Xiaomi Mi 10T Pro 5G" "M2007J3SG",
  gl "Xiaomi Mi 11" "M2011K2G",
  gl "Xiaomi Mi 11 Lite" "M2101K9AG",
  gl "Xiaomi Mi 11 Lite 5G" "M2101K9G",
  gl "Xiaomi Mi 11 Ultra" "M2102K1G",
  gl "Xiaomi Mi 11i" "M2012K11G",
  gl "Xiaomi Mi 11T Pro" "2107113SG",
  gl "Xiaomi Mi 9" "MI 9",
  gl "Xiaomi Mi 9 Lite" "Mi 9 Lite",
  gl "Xiaomi Mi 9T" "Mi 9T",
  gl "Xiaomi Mi K20 Pro" "Redmi K20 Pro",
  gl "Xiaomi Mi Note 10" "Mi Note 10",
  gl "Xiaomi Mi Note 10 Lite" "Mi Note 10 Lite",
  gl "Xiaomi Mi Note 10 Pro" "Mi Note 10 Pro",
  gl "Xiaomi Poco F2 Pro" "POCO F2 Pro",
  gl "Xiaomi Poco F3" "M2012K11AG",
  gl "Xiaomi Poco F4" "22021211RG",
  gl "Xiaomi Poco F4 GT" "21121210G",
  gl "Xiaomi Poco M3 Pro 5G" "M2103K19PG",
  gl "Xiaomi Poco M4 Pro 5G" "21091116AG",
  gl "Xiaomi Poco X3 GT" "21061110AG",
  gl "Xiaomi Poco X3 NFC" "M2007J20CG",
  gl "Xiaomi Poco X3 Pro" "M2102J20SG",
  gl "Xiaomi Poco X4 GT" "22041216G",
  gl "Xiaomi Redmi 9" "M2004J19C",
  gl "Xiaomi Redmi K20 Pro" "Redmi K20 Pro",
  gl "Xiaomi Redmi Note 10" "M2101K7AG",
  gl "Xiaomi Redmi Note 10 5G" "M2103K19G",
  gl "Xiaomi Redmi Note 10 Pro" "M2101K6G",
  gl "Xiaomi Redmi Note 10S" "M2101K7BG",
  gl "Xiaomi Redmi Note 11" "2201117TY",
  gl "Xiaomi Redmi Note 11 Pro" "2201116TG",
  gl "Xiaomi Redmi Note 11 Pro+ 5G" "21091116UG",
  gl "Xiaomi Redmi Note 11S" "2201117SY",
  gl "Xiaomi Redmi Note 8" "M1908C3JGG",
  gl "Xiaomi Redmi Note 8 Pro" "Redmi Note 8 Pro",
  gl "Xiaomi Redmi Note 9" "M2003J15SC",
  gl "Xiaomi Redmi Note 9 Pro" "Redmi Note 9 Pro",
  gl "Xiaomi Redmi Note 9S" "Redmi Note 9S",
  gl "Xiaomi Redmi Note 9T" "M2007J22G",
  gs "Google TV",
  gs "Lumia",
  gs "iPad",
  gs "iPod",
  gs "iPhone",
  gs "Kindle",
  gl "Kindle Fire" "(?:Cloud9|Silk-Accelerated)",
  gs "Nexus",
  gs "Nook",
  gs "PlayBook",
  gs "PlayStation Vita",
  gs "PlayStation",
  gs "TouchPad",
  gs "Transformer",
  gl "Wii U" "WiiU",
  gs "Wii",
  gs "Xbox One",
  gl "Xbox 360" "Xbox",
  gs "Xoom"
]

def osGuesses : List Guess := [
  gs "Windows Phone",
  gs "KaiOS",
  gs "Android",
  gs "CentOS",
  gl "Chrome OS" "CrOS",
  gs "Debian",
  gl "DragonFly BSD" "DragonFly",
  gs "Fedora",
  gs "FreeBSD",
  gs "Gentoo",
  gs "Haiku",
  gs "Kubuntu",
  gs "Linux Mint",
  gs "OpenBSD",
  gs "Red Hat",
  gs "SuSE",
  gs "Ubuntu",
  gs "Xubuntu",
  gs "Cygwin",
  gs "Symbian OS",
  gs "hpwOS",
  gs "webOS ",
  gs "webOS",
  gs "Tablet OS",
  gs "Tizen",
  gs "Linux",
  gs "Mac OS X",
  gs "Macintosh",
  gs "Mac",
  gs "Windows 98;",
  gs "Windows "
]

def manufacturerTable : List (String × List String) := [
  ("Apple", ["iPad", "iPhone", "iPod"]),
  ("Alcatel", []),
  ("Archos", []),
  ("Amazon", ["Kindle", "Kindle Fire"]),
  ("Asus", ["Transformer"]),
  ("Barnes & Noble", ["Nook"]),
  ("BlackBerry", ["PlayBook"]),
  ("Google", ["Google TV", "Nexus", "Pixel"]),
  ("HP", ["TouchPad"]),
  ("HTC", []),
  ("Huawei", []),
  ("Lenovo", []),
  ("LG", []),
  ("Microsoft", ["Xbox", "Xbox One"]),
  ("Motorola", ["Xoom"]),
  ("Nintendo", ["Wii U", "Wii"]),
  ("Nokia", ["Lumia"]),
  ("Oppo", []),
  ("Samsung", ["Galaxy S", "Galaxy S2", "Galaxy S3", "Galaxy S4"]),
  ("Sony", ["PlayStation", "PlayStation Vita"]),
  ("Xiaomi", ["Mi", "Redmi"])
]


/-- `reduce` (source lines 224-230): a fold over the whole list with a
null accumulator; the callbacks used by the axis scanners keep the
first non-null result. -/
def reduceJS (l : List α) (cb : Option β → α → Option β) : Option β :=
  l.foldl cb none

/-- The first non-null per-entry result, via `reduceJS` with the
`result || f(entry)` callback shape used by every axis scanner. -/
def firstSome (f : α → Option β) (l : List α) : Option β :=
  reduceJS l (fun acc g => acc.orElse (fun _ => f g))

/-- Per-entry test of `getLayout`/`getName` (source 1323-1329 and
1356-1362): word-bounded case-insensitive pattern match; a match yields
the label. -/
def nameEntry (ua : LC) (g : Guess) : Option String :=
  if (Re.mk true true true g.pats).test ua then some g.label else none

def getLayoutJS (ua : LC) : Option String :=
  firstSome (nameEntry ua) layoutGuesses

def getNameJS (ua : LC) : Option String :=
  firstSome (nameEntry ua) nameGuesses

/-- Per-entry matcher of `getOS` (source 1371-1381): word boundary, the
pattern, then a `/`-version or a greedy run of spaces, word characters
and dots; the matched text is normalized by `cleanupOS` with the
entry's pattern and label. -/
def osEntry (ua : LC) (g : Guess) : Option LC :=
  let suf1 : Pat := [.lit '/', .plus isDigitDot]
  let suf2 : Pat := [.star (fun c => c == ' ' || isWordC c || c == '.')]
  let alts := g.pats.flatMap (fun a => [a ++ suf1, a ++ suf2])
  ((Re.mk true true false alts).text ua).map
    (fun t => cleanupOS t g.pats g.label)

def getOSJS (ua : LC) : Option LC :=
  firstSome (osEntry ua) osGuesses

/-- Per-entry matcher of `getProduct` (source 1390-1411): three suffix
regexes tried in order, then the label/split/replace/format
post-processing. -/
def productEntry (ua : LC) (g : Guess) : Option LC :=
  let pats := g.pats
  let s1 : Pat := [.star (· == ' '), .plus isDigitC,
    .star (fun c => c == '.' || isWordC c)]
  let s2 : Pat := [.star (· == ' '), .plus isWordC, .lit '-', .star isWordC]
  let s3a : Pat := [.lit ';', .star (· == ' '), .plus isAlphaC,
    .cls (fun c => c == '_' || c == '-'), .plus isAlphaC, .plus isDigitC]
  let s3b : Pat := [.lit ';', .star (· == ' '), .plus isAlphaC, .plus isDigitC]
  let s3c : Pat := [.star (fun c =>
    !(c == ' ' || c == '(' || c == ')' || c == ';' || c == '-'))]
  let find (suf : List Pat) : Option LC :=
    (Re.mk true true false (pats.flatMap (fun a => suf.map (a ++ ·)))).text ua
  match (find [s1]).orElse (fun _ => (find [s2]).orElse (fun _ =>
      find [s3a, s3b, s3c])) with
  | none => none
  | some txt =>
    let useLabel := !g.auto && !((Re.mk true false false pats).test g.label.data)
    let r0 := if useLabel then g.label.data else txt
    -- split by forward slash and append product version if needed
    let parts := splitChar '/' r0
    let head0 := parts.headD []
    let head1 :=
      match parts[1]? with
      | some p1 =>
          if p1 ≠ [] ∧ ¬(head0.any isDigitDot) then head0 ++ ' ' :: p1
          else head0
      | none => head0
    let lbl := g.label
    let a := (Re.mk true false false pats).replace1 head1 lbl.data
    let lblPat := compileAlt lbl.data
    let b := (Re.mk true false false
      [[.lit ';', .star (· == ' ')] ++ lblPat ++
         [.cls (fun c => c == '_' || c == '-')],
       [.lit ';', .star (· == ' ')]]).replace1 a [' ']
    let c :=
      match (Re.mk true false false
        [lblPat ++ [.mark, .cls (fun c => c == '-' || c == '_' || c == '.'),
           .cls isWordC],
         lblPat ++ [.mark, .cls isWordC]]).search b with
      | some (st, n, some k) =>
          b.take st ++ (b.drop st).take k ++ [' '] ++
            ((b.drop (st + n - 1)).take 1) ++ b.drop (st + n)
      | _ => b
    some (formatJS c)

def getProductJS (guesses : List Guess) (ua : LC) : Option LC :=
  firstSome (productEntry ua) guesses

/-- The leading word sequence used by `getManufacturer` for its second
table lookup (an anchored case-insensitive letters-and-spaces run whose
optional repetitions each end at a word boundary).  The repetitions are
fueled by the input length. -/
def leadWordsGo : Nat → LC → LC
  | 0, _ => []
  | _ + 1, [] => []
  | f + 1, s =>
      let sp := s.takeWhile (· == ' ')
      if sp = [] then [] else
        let s1 := s.drop sp.length
        let w := s1.takeWhile isAlphaC
        if w = [] then [] else
        match (s1.drop w.length).head? with
        | some c => if isWordC c then [] else
            sp ++ w ++ leadWordsGo f (s1.drop w.length)
        | none => sp ++ w ++ leadWordsGo f (s1.drop w.length)

def leadWords (s : LC) : Option LC :=
  let w := s.takeWhile isAlphaC
  if w = [] then none
  else some (w ++ leadWordsGo s.length (s.drop w.length))

/-- Per-entry test of `getManufacturer` (source 1338-1347): look the
manufacturer up by product, by the product's leading words, or scan the
UA for the qualified key followed by a boundary or word characters
ending in a digit. -/
def manuEntry (product : Option LC) (ua : LC) (e : String × List String) :
    Option String :=
  let pstr := match product with | some p => p | none => "null".data
  let direct := e.2.any (fun p => p.data == pstr)
  let lead := (leadWords pstr).getD "null".data
  let second := e.2.any (fun p => p.data == lead)
  let kp := qualifyPat e.1.data
  let third := (Re.mk true true false
    [kp ++ [.look (fun r => match r.head? with
        | some c => !(isWordC c) | none => true)],
     kp ++ [.star isWordC, .cls isDigitC]]).test ua
  if direct || second || third then some e.1 else none

def getManufacturerJS (product : Option LC) (ua : LC) : Option String :=
  firstSome (manuEntry product ua) manufacturerTable

/-- The connector-and-capture tail of every `getVersion` pattern
(source 1422-1423): a dashed version plus slash, or an optional
for-clause and a single separator, then the captured version token. -/
def verConnCap : List Pat :=
  let cap : Pat := [.mark, .plus isDigitDot,
    .star (fun c => !(c == ' ' || c == '(' || c == ')' || c == ';' ||
      c == '/' || c == '_' || c == '-'))]
  [[.lit '-', .plus isDigitDot, .lit '/'] ++ cap,
   lits " for " ++ [.plus (fun c => isWordC c || c == '-'),
     .cls (fun c => c == ' ' || c == '/' || c == '-')] ++ cap,
   [.cls (fun c => c == ' ' || c == '/' || c == '-')] ++ cap]

/-- One `getVersion` pattern applied to the UA; returns the captured
version token. -/
def versionEntry (alts : List Pat) (ua : LC) : Option LC :=
  (Re.mk true false false
    (alts.flatMap (fun a => verConnCap.map (a ++ ·)))).capture ua

/-- `getVersion` (source 1420-1425). -/
def getVersionJS (patterns : List (List Pat)) (ua : LC) : Option LC :=
  reduceJS patterns (fun acc p => acc.orElse (fun _ => versionEntry p ua))

/-- The first alternation group of the version patterns (source 1543),
including the negative lookahead on `Silk`. -/
def versionGroup1 : List Pat :=
  [lits "Cloud9", lits "CriOS", lits "CrMo", lits "Edge", lits "Edg",
   lits "EdgA", lits "EdgiOS", lits "FxiOS", lits "HeadlessChrome",
   lits "IEMobile", lits "Iron",
   [.lit 'O', .lit 'p', .lit 'e', .lit 'r', .lit 'a', .optc ' ',
    .lit 'M', .lit 'i', .lit 'n', .lit 'i'],
   lits "OPiOS", lits "OPR", lits "Raven", lits "SamsungBrowser",
   lits "Silk" ++ [.look (fun r =>
     !(r.head? == some '/' ∧ r.tail ≠ [] ∧ r.tail.all isDigitDot))],
   lits "UCBrowser", lits "YaBrowser"]

def versionGroup2 : List Pat :=
  [lits "Firefox", lits "Minefield", lits "NetFront"]

end PlatformJS

namespace PlatformJS

/-! ### Numbers

JS numeric coercions are modelled by exact decimals `mant / 10^scale`;
`none` models `NaN` (and a failed parse). -/

structure NumV where
  mant : Nat
  scale : Nat
deriving DecidableEq, Repr

def numLT (a b : NumV) : Bool := a.mant * 10 ^ b.scale < b.mant * 10 ^ a.scale

def numEqB (a b : NumV) : Bool := a.mant * 10 ^ b.scale == b.mant * 10 ^ a.scale

def natOfDigits (l : LC) : Nat := l.foldl (fun n c => n * 10 + (c.toNat - 48)) 0

/-- JS `parseFloat`: the numeric prefix of the string, `none` for NaN. -/
def parseFloatJS (s : LC) : Option NumV :=
  let ip := s.takeWhile isDigitC
  let rest := s.drop ip.length
  let fr := match rest with
    | '.' :: t => t.takeWhile isDigitC
    | _ => []
  if ip = [] ∧ fr = [] then none
  else some ⟨natOfDigits (ip ++ fr), fr.length⟩

/-- JS `Number(string)` for the full-string numeric comparisons in the
source (`version > 5.5`, `version == 8`, `data[2] == 537.36`). -/
def jsNumberFull (s : LC) : Option NumV :=
  let t := trimJS s
  if t = [] then some ⟨0, 0⟩ else
  let ip := t.takeWhile isDigitC
  let rest := t.drop ip.length
  match rest with
  | [] => if ip = [] then none else some ⟨natOfDigits ip, 0⟩
  | '.' :: fr =>
      if fr.all isDigitC ∧ (ip ≠ [] ∨ fr ≠ []) then
        some ⟨natOfDigits (ip ++ fr), fr.length⟩
      else none
  | _ => none

/-- `version > q` for a possibly-null version string and a positive
threshold (`null` coerces to `0`, NaN compares false). -/
def verGT (v : Option String) (q : NumV) : Bool :=
  match v with
  | none => false
  | some t =>
    match jsNumberFull t.data with
    | some n => numLT q n
    | none => false

/-- `version == 8` (loose equality: `null` is not loosely equal to a
number, NaN is equal to nothing). -/
def verEq8 (v : Option String) : Bool :=
  match v with
  | none => false
  | some t =>
    match jsNumberFull t.data with
    | some n => numEqB n ⟨8, 0⟩
    | none => false

/-- `parseFloat(x) < q` with NaN comparing false. -/
def pfLT (v : Option NumV) (q : NumV) : Bool :=
  match v with
  | some n => numLT n q
  | none => false

/-- `parseFloat(x) > q` with NaN comparing false. -/
def pfGT (v : Option NumV) (q : NumV) : Bool :=
  match v with
  | some n => numLT q n
  | none => false

/-- `parseFloat(x) >= q` with NaN comparing false. -/
def pfGE (v : Option NumV) (q : NumV) : Bool :=
  match v with
  | some n => !numLT n q
  | none => false

/-- `parseInt(version) > 45` with NaN comparing false. -/
def parseIntGT45 (v : String) : Bool :=
  let d := v.data.takeWhile isDigitC
  if d = [] then false else natOfDigits d > 45

/-! ### The result record and the pipeline snapshot -/

/-- The resolved-OS object built at source lines 1849-1861.  `special`
captures the `isSpecialCasedOS` flag read by its `toString`. -/
structure OSInfo where
  architecture : Nat
  family : String
  version : Option String
  special : Bool
deriving DecidableEq, Repr

/-- `os.toString()` (source lines 1856-1859). -/
def osInfoRender (i : OSInfo) : String :=
  i.family ++
    (match i.version with
     | some v => if !i.special then " " ++ v else ""
     | none => "") ++
    (if i.architecture == 64 then " 64-bit" else "")

/-- The rendered form of the record's `os` field: the unresolved stub
renders as the literal string `"null"` (source lines 1986-2024). -/
def osFieldRender (o : Option OSInfo) : String :=
  match o with
  | some i => osInfoRender i
  | none => "null"

/-- The platform record (source lines 1893-2027). -/
structure Platform where
  description : Option String
  layout : Option String
  manufacturer : Option String
  name : Option String
  prerelease : Option String
  product : Option String
  ua : Option String
  version : Option String
  os : Option OSInfo
deriving DecidableEq, Repr

/-- `platform.toString()` (source lines 1434-1436). -/
def renderPlatform (p : Platform) : String := p.description.getD ""

/-- The mutable state of one `parse` invocation: the `layout` array is
a base label with an optional detail slot (`layout[1]`), `descParts` is
the `description` array of contextual notes. -/
structure Snap where
  layout : Option (String × Option String)
  name : Option String
  product : Option String
  manufacturer : Option String
  os : Option String
  version : Option String
  prerelease : Option String
  descParts : List String
  useFeatures : Bool
deriving DecidableEq, Repr

def emptySnap : Snap :=
  ⟨none, none, none, none, none, none, none, [], false⟩

/-- JS string coercion of a possibly-null field (`String(null)` is
`"null"`). -/
def jsStr (v : Option String) : LC :=
  match v with
  | some s => s.data
  | none => "null".data

/-- JS `==` between the layout array and a string (the one-element
array coerces to its element; a two-element array joins on a comma). -/
def layoutEq (l : Option (String × Option String)) (x : String) : Bool :=
  match l with
  | none => false
  | some (b, none) => b == x
  | some (b, some d) => (b ++ "," ++ d) == x

/-- A lookahead token that demands no word character next (encodes a
trailing `\b` after a pattern known to end in a word character). -/
def wordEndLook : PTok :=
  .look (fun r => match r.head? with
    | some c => !(isWordC c)
    | none => true)

end PlatformJS

namespace PlatformJS

/-! ### parse, stage by stage

The environment is hostless (no navigator/java/opera/document/process),
so `userAgent = ""`, `opera = null`, `useFeatures = (ua == "")` and all
feature-probing branches take their absent-capability paths. -/

/-- The Android product capture (source 1449-1455): after a
word-bounded `Android`, skip to the `;` and take the lazy-minimal text
up to a word-bounded `Build` or `) AppleWebKit` terminator. -/
def androidCapGo (f : Nat) (prev : Option Char) (t : LC) : Option LC :=
  match f, t with
  | _, [] => none
  | 0, _ => none
  | f + 1, c :: rest =>
      if boundary prev (some c) ∧
          (matchAt true (lits "Android") (c :: rest)).isSome then
        -- [^;]*; with the dot-excluded line terminators
        let sk := (c :: rest).takeWhile (fun d =>
          !(d == ';' || d == '\n' || d == '\r'))
        let after := (c :: rest).drop sk.length
        match after with
        | ';' :: tail =>
            -- lazy scan for the terminator
            let rec scan (g : Nat) (acc : LC) (u : LC) : Option LC :=
              match g, u with
              | _, [] => none
              | 0, _ => none
              | g + 1, d :: us =>
                  if (matchAt true (lits "Build" ++ [wordEndLook]) (d :: us)).isSome ∨
                      (matchAt true (lits ") AppleWebKit" ++ [wordEndLook]) (d :: us)).isSome then
                    some acc.reverse
                  else if d == '\n' || d == '\r' then none
                  else scan g (d :: acc) us
            match scan tail.length [] tail with
            | some capt => some capt
            | none => androidCapGo f (some c) rest
        | _ => androidCapGo f (some c) rest
      else androidCapGo f (some c) rest

def androidCapture (ua : LC) : Option LC :=
  androidCapGo ua.length none ua

/-- `/^[a-z]{2}-[a-z]{2};\s*/i.replace(..., '')` (source 1453). -/
def stripLangCode (s : LC) : LC :=
  match s with
  | a :: b :: '-' :: c :: d :: ';' :: t =>
      if isAlphaC a ∧ isAlphaC b ∧ isAlphaC c ∧ isAlphaC d then
        t.dropWhile isSpaceJS
      else s
  | _ => s

/-- The two manufacturer-prefix rewrites of the product
(source 1460-1462). -/
def manuProductMerge (m : String) (p : String) : String :=
  let mq := qualifyPat m.data
  let pd := p.data
  let r1 :=
    match matchAt true (mq ++ [.cls (fun c =>
        c == '-' || c == '_' || c == '.' || isSpaceJS c)]) pd with
    | some (n, _) => m.data ++ ' ' :: pd.drop n
    | none => pd
  let r2 :=
    match matchAt true (mq ++ [.mark,
        .cls (fun c => c == '-' || c == '_' || c == '.'), .cls isWordC]) r1 with
    | some (n, _) => m.data ++ ' ' :: (r1.drop (n - 1)).take 1 ++ r1.drop n
    | none =>
      match matchAt true (mq ++ ([.mark, .cls isWordC] : Pat)) r1 with
      | some (n, _) => m.data ++ ' ' :: (r1.drop (n - 1)).take 1 ++ r1.drop n
      | none => r1
  r2.asString

/-- Source lines 319-1475: the matcher invocations and the product and
description fix-ups that precede the correction chains. -/
def preStage (ua : LC) : Snap :=
  let useFeatures := ua == []
  let layout := (getLayoutJS ua).map (fun b => (b, (none : Option String)))
  let name := getNameJS ua
  let product0 := getProductJS productGuesses ua
  let manufacturer := getManufacturerJS product0 ua
  let os0 := getOSJS ua
  let osStr := match os0 with | some o => o | none => "null".data
  -- Detect Android products (1449-1455).
  let product1 :=
    if (Re.mk false true true [lits "Android"]).test osStr ∧ product0 = none then
      match androidCapture ua with
      | some d =>
          let t := stripLangCode (trimJS d)
          if t = [] then none else some t
      | none => none
    else product0
  -- Product names containing the manufacturer's name (1457-1463).
  let product2 : Option String :=
    match manufacturer, product1 with
    | some m, none => (getProductJS [gs m] ua).map List.asString
    | some m, some p => some (manuProductMerge m p.asString)
    | none, p => p.map List.asString
  -- Clean up Google TV (1465-1467).
  let product3 :=
    if (Re.mk false true true [lits "Google TV"]).test (jsStr product2) then
      some "Google TV"
    else product2
  -- Detect simulators (1469-1471).
  let product4 :=
    if (Re.mk true true true [lits "Simulator"]).test ua then
      some ((match product3 with | some p => p ++ " " | none => "") ++ "Simulator")
    else product3
  -- Opera Mini 8+ in Turbo/Uncompressed mode (1473-1475).
  let desc :=
    if name == some "Opera Mini" ∧ (Re.mk false true true [lits "OPiOS"]).test ua then
      ["running in Turbo/Uncompressed mode"]
    else []
  { layout := layout, name := name, product := product4,
    manufacturer := manufacturer, os := os0.map List.asString,
    version := none, prerelease := none, descParts := desc,
    useFeatures := useFeatures }

/-- The IE Mobile 11 re-parse condition (source 1477). -/
def ieCond (ua : LC) (s : Snap) : Bool :=
  s.name == some "IE" ∧ (Re.mk false true true [lits "like iPhone OS"]).test ua

/-- The argument of the IE Mobile 11 re-parse (source 1478). -/
def ieArg (ua : LC) : LC := replaceFirstLit ua "like iPhone OS".data []

/-- Merge the nested record into the snapshot (source 1479-1480). -/
def applyIE (s : Snap) (child : Platform) : Snap :=
  { s with manufacturer := child.manufacturer, product := child.product }

/-- `/[a-z]+(?: Hat)?/i.exec(x)`: the first letter run, optionally
followed by a literal ` Hat` (used at source 1533). -/
def leadHatGo (f : Nat) (s : LC) : Option LC :=
  match f, s with
  | _, [] => none
  | 0, _ => none
  | f + 1, c :: t =>
      if isAlphaC c then
        let run := (c :: t).takeWhile isAlphaC
        let rest := (c :: t).drop run.length
        if (matchAt true (lits " Hat") rest).isSome then
          some (run ++ rest.take 4)
        else some run
      else leadHatGo f t

def leadHat (s : LC) : Option LC := leadHatGo s.length s

/-- `/[\/,]|^[^(]+?\)/.test(t)` (source 1526). -/
def falsePositiveTail (t : LC) : Bool :=
  t.any (fun c => c == '/' || c == ',') ||
    (match t with
     | [] => false
     | c :: rest =>
         if c == '(' then false else
           let rec lp : LC → Bool
             | [] => false
             | d :: us => if d == ')' then true
                 else if d == '(' then false else lp us
           lp rest)

/-- Source lines 1483-1538: the first correction chain, taken when the
IE Mobile 11 branch did not fire. -/
def chainAelse (ua : LC) (s : Snap) : Snap :=
  let pstr := jsStr s.product
  let ostr := jsStr s.os
  let nstr := jsStr s.name
  -- Detect iOS (1483-1488).
  if "iP".data.isPrefixOf pstr then
    let name := match s.name with | some n => some n | none => some "Safari"
    let osv := (Re.mk true false false
      [lits " OS " ++ [.mark, .plus (fun c => isDigitC c || c == '_')]]).capture ua
    let os := "iOS" ++
      (match osv with
       | some d => " " ++ (d.map (fun c => if c == '_' then '.' else c)).asString
       | none => "")
    { s with name := name, os := some os }
  -- Detect Kubuntu (1490-1492).
  else if s.name == some "Konqueror" ∧
      (matchAt true (lits "Linux" ++ [wordEndLook]) ostr).isSome then
    { s with os := some "Kubuntu" }
  -- Detect Android browsers (1494-1499).
  else if (s.manufacturer.isSome ∧ s.manufacturer ≠ some "Google" ∧
        ((containsLit nstr "Chrome".data ∧
          !(Re.mk true true true [lits "Mobile Safari"]).test ua) ∨
         (Re.mk false true true [lits "Vita"]).test pstr)) ∨
      ((Re.mk false true true [lits "Android"]).test ostr ∧
        "Chrome".data.isPrefixOf nstr ∧
        (Re.mk true true false [lits "Version/"]).test ua) then
    { s with name := some "Android Browser",
             os := if (Re.mk false true true [lits "Android"]).test ostr
                   then s.os else some "Android" }
  -- Detect Silk desktop/accelerated modes (1501-1509).
  else if s.name == some "Silk" then
    let s1 :=
      if !(Re.mk true true false [lits "Mobi"]).test ua then
        { s with os := some "Android", descParts := "desktop mode" :: s.descParts }
      else s
    if (Re.mk true false false
        [lits "Accelerated" ++ [.star (· == ' '), .lit '=', .star (· == ' ')] ++
          lits "true"]).test ua then
      { s1 with descParts := "accelerated" :: s1.descParts }
    else s1
  -- Detect UC Browser speed mode (1511-1513).
  else if s.name == some "UC Browser" ∧
      (Re.mk false true true [lits "UCWEB"]).test ua then
    { s with descParts := s.descParts ++ ["speed mode"] }
  -- Detect PaleMoon identifying as Firefox (1515-1517).
  else if s.name == some "PaleMoon" then
    match (Re.mk false true true
        [lits "Firefox/" ++ [.mark, .plus isDigitDot]]).capture ua with
    | some d =>
        { s with descParts :=
            s.descParts ++ ["identifying as Firefox " ++ d.asString] }
    | none => chainAposterior ua s
  -- Detect Firefox OS and products running Firefox (1519-1522).
  else if s.name == some "Firefox" then
    match (Re.mk true true true [lits "Mobile", lits "Tablet", lits "TV"]).text ua with
    | some d =>
        { s with os := match s.os with | some o => some o | none => some "Firefox OS",
                 product := match s.product with
                   | some p => some p
                   | none => some d.asString }
    | none => chainAposterior ua s
  else chainAposterior ua s
where
  /-- Source lines 1524-1538: false-positive clearing, generic-name
  reassignment and the Electron note. -/
  chainAposterior (ua : LC) (s : Snap) : Snap :=
    let ostr := jsStr s.os
    let nstr := jsStr s.name
    let fsMatch := (Re.mk false true true [lits "Firefox", lits "Safari"]).text nstr
    if s.name = none ∨
        (!(Re.mk true true true [lits "Minefield"]).test ua ∧ fsMatch.isSome) then
      let dataStr := fsMatch.getD []
      let sliced := match indexOfLit (dataStr ++ ['/']) ua with
        | some i => ua.drop (i + 8)
        | none => ua.drop 7
      let name1 :=
        if s.name.isSome ∧ s.product = none ∧ falsePositiveTail sliced then
          none
        else s.name
      let d2 : Option String := s.product.orElse (fun _ =>
        s.manufacturer.orElse (fun _ => s.os))
      if d2.isSome ∧ (s.product.isSome ∨ s.manufacturer.isSome ∨
          (Re.mk false true true [lits "Android", lits "Symbian OS",
            lits "Tablet OS", lits "webOS"]).test ostr) then
        let src := if (Re.mk false true true [lits "Android"]).test ostr
                   then ostr else (d2.getD "").data
        { s with name := some (((leadHat src).getD "null".data).asString ++ " Browser") }
      else { s with name := name1 }
    else if s.name == some "Electron" then
      match (Re.mk false true true
          [lits "Chrome/" ++ [.mark, .plus isDigitDot]]).capture ua with
      | some d => { s with descParts := s.descParts ++ ["Chromium " ++ d.asString] }
      | none => s
    else s

end PlatformJS

namespace PlatformJS

/-- `/; *(?:XBLWP|ZuneWP)(\d+)/i` (source 1560). -/
def xblCapture (ua : LC) : Option LC :=
  (Re.mk true false false
    [[.lit ';', .star (· == ' ')] ++ lits "XBLWP" ++ [.mark, .plus isDigitC],
     [.lit ';', .star (· == ' ')] ++ lits "ZuneWP" ++ [.mark, .plus isDigitC]]).capture ua

/-- `/\brv:([\d.]+)/` (source 1570 and 1573). -/
def rvCapture (ua : LC) : Option LC :=
  (Re.mk false true false [lits "rv:" ++ [.mark, .plus isDigitDot]]).capture ua

/-- `/(?:[ab]|dp|pre|[ab]\d+pre)(?:\d+\+?)?$/i` (source 1662). -/
def endPreRe : Re :=
  let ab : PTok := .cls (fun c => lowerC c == 'a' || lowerC c == 'b')
  let cores : List Pat := [[ab], lits "dp", lits "pre",
    [ab, .plus isDigitC] ++ lits "pre"]
  let sufs : List Pat := [[.plus isDigitC, .optc '+'], []]
  Re.mk true false false
    (cores.flatMap (fun c => sufs.map (fun sf => c ++ sf ++ [atEnd])))

/-- `/(?:alpha|beta)(?: ?\d)?/i` (source 1663). -/
def alphaBetaRe : Re :=
  let sufs : List Pat := [[.optc ' ', .cls isDigitC], []]
  Re.mk true false false
    ((["alpha", "beta"].map lits).flatMap (fun c => sufs.map (fun sf => c ++ sf)))

/-- `/\d+\+?/.exec(data)` (source 1668). -/
def digitsPlusText (d : LC) : LC :=
  ((Re.mk false false false [[.plus isDigitC, .optc '+']]).text d).getD []

/-- `version.replace(RegExp(data + '\+?$'), '')` (source 1667): the
matched prerelease text is itself recompiled as a regex. -/
def stripEndData (v : LC) (d : LC) : LC :=
  (Re.mk false false false [compileAlt d ++ [.optc '+', atEnd]]).replace1 v []

/-- `parseFloat(version)` for a possibly-null version. -/
def pfOfVer (v : Option String) : Option NumV :=
  match v with
  | some t => parseFloatJS t.data
  | none => none

/-- Source lines 1541-1669: version resolution, stubborn layout
engines, Windows Phone desktop modes, IE 11 identifying, the (hostless)
feature block, and prerelease detection. -/
def midStage (ua : LC) (s : Snap) : Snap :=
  let nstr := jsStr s.name
  -- Detect non-Opera versions (1541-1548).
  let version :=
    match s.version with
    | some v => some v
    | none => (getVersionJS [versionGroup1, [lits "Version"],
        [qualifyPat (jsStr s.name)], versionGroup2] ua).map List.asString
  -- Detect stubborn layout engines (1550-1558).
  let sd : Option String :=
    if layoutEq s.layout "iCab" ∧ pfGT (pfOfVer version) ⟨3, 0⟩ then
      some "WebKit"
    else if (Re.mk false true true [lits "Opera"]).test nstr then
      some (if (Re.mk false true true [lits "OPR"]).test ua then "Blink" else "Presto")
    else if (Re.mk true true true [lits "Midori", lits "Nook", lits "Safari"]).test ua ∧
        !(layoutEq s.layout "Trident" || layoutEq s.layout "EdgeHTML") then
      some "WebKit"
    else if s.layout = none ∧ (Re.mk true true true [lits "MSIE"]).test ua then
      some (if s.os == some "Mac OS" then "Tasman" else "Trident")
    else if layoutEq s.layout "WebKit" ∧
        (Re.mk true true true [lits "PlayStation" ++ [.look (fun r =>
          !(matchAt true (lits " Vita" ++ [wordEndLook]) r).isSome)]]).test nstr then
      some "NetFront"
    else none
  let st1 : Snap :=
    { s with
      version := version,
      layout := (match sd with
        | some x => some (x, (none : Option String))
        | none => s.layout) }
  -- Windows Phone 7 desktop mode (1560-1564).
  let st2 : Snap :=
    if st1.name == some "IE" ∧ (xblCapture ua).isSome then
      let d := (xblCapture ua).getD []
      { st1 with
        name := some "IE Mobile",
        os := some ("Windows Phone " ++
          (if d.getLast? == some '+' then d.asString else d.asString ++ ".x")),
        descParts := "desktop mode" :: st1.descParts }
    -- Windows Phone 8.x desktop mode (1566-1571).
    else if (Re.mk true true true [lits "WPDesktop"]).test ua then
      { st1 with
        name := some "IE Mobile", os := some "Windows Phone 8.x",
        descParts := "desktop mode" :: st1.descParts,
        version := (match st1.version with
          | some v => some v
          | none => (rvCapture ua).map List.asString) }
    -- IE 11 identifying as other browsers (1573-1579).
    else if st1.name ≠ some "IE" ∧ layoutEq st1.layout "Trident" ∧
        (rvCapture ua).isSome then
      { st1 with
        name := some "IE",
        version := (rvCapture ua).map List.asString,
        descParts := (match st1.name with
          | some n => st1.descParts ++ ["identifying as " ++ n ++
              (match st1.version with | some v => " " ++ v | none => "")]
          | none => st1.descParts) }
    else st1
  -- Leverage environment features (1581-1658): in the hostless
  -- environment every probe reports the capability absent, leaving only
  -- the final `os = os && format(os)`.
  let st3 := if st2.useFeatures then
      { st2 with os := st2.os.map (fun o => (formatJS o.data).asString) }
    else st2
  -- Detect prerelease phases (1660-1669).
  match st3.version with
  | none => st3
  | some v =>
    let d : Option LC := (endPreRe.text v.data).orElse (fun _ =>
      (alphaBetaRe.text (ua ++
        (if st3.useFeatures then ";undefined" else ";false").data)).orElse (fun _ =>
        if (Re.mk true true true [lits "Minefield"]).test ua then
          some "a".data
        else none))
    match d with
    | none => st3
    | some dd =>
      let pre := if dd.any (fun c => lowerC c == 'b') then "beta" else "alpha"
      { st3 with
        prerelease := some pre,
        version := some ((stripEndData v.data dd).asString ++
          (if pre == "beta" then "β" else "α") ++ (digitsPlusText dd).asString) }

/-- RegExp built from `product.replace(/ +/g, ' *') + '/([.\d]+)'`
(source 1705). -/
def bbCompress : LC → Pat
  | [] => []
  | ' ' :: t => .star (· == ' ') :: bbCompress t
  | c :: t => .lit c :: bbCompress t

def bbProductRe (pstr : LC) : Re :=
  Re.mk true false false [bbCompress pstr ++ [.lit '/', .mark, .plus isDigitDot]]

/-- Source lines 1671-1710: the second correction chain (Firefox
Mobile, Maxthon, Xbox, the mobile postfix, the IE platform preview and
BlackBerry).  Returns `none` when no branch applied (the Opera
identifying/masking branch is then considered). -/
def chainBApply (ua : LC) (s : Snap) : Option Snap :=
  let pstr := jsStr s.product
  let ostr := jsStr s.os
  let nstr := jsStr s.name
  -- Detect Firefox Mobile (1671-1673).
  if s.name == some "Fennec" ∨ (s.name == some "Firefox" ∧
      (Re.mk false true true
        [lits "Android", lits "Firefox OS", lits "KaiOS"]).test ostr) then
    some { s with name := some "Firefox Mobile" }
  -- Obscure Maxthon's unreliable version (1675-1677).
  else if s.name == some "Maxthon" ∧ s.version.isSome then
    some { s with version := s.version.map (fun v =>
      ((Re.mk false false false
        [[.lit '.', .plus isDigitDot]]).replace1 v.data ".x".data).asString) }
  -- Detect Xbox 360 and Xbox One (1679-1686).
  else if (Re.mk true true true [lits "Xbox"]).test pstr then
    let s1 := if s.product == some "Xbox 360" then { s with os := none } else s
    some (if s.product == some "Xbox 360" ∧
        (Re.mk false true true [lits "IEMobile"]).test ua then
      { s1 with descParts := "mobile mode" :: s1.descParts }
    else s1)
  -- Add mobile postfix (1688-1691).
  else if ((nstr == "Chrome".data || nstr == "IE".data || nstr == "Opera".data) ∨
      (s.name.isSome ∧ s.product = none ∧
        !(containsLit nstr "Browser".data || containsLit nstr "Mobi".data))) ∧
      (s.os == some "Windows CE" ∨
        (Re.mk true false false [lits "Mobi"]).test ua) then
    some { s with name := some (nstr.asString ++ " Mobile") }
  -- Detect IE platform preview (1693-1701): hostless, the probe of
  -- `context.external` reports `undefined`, which is not `null`, so no
  -- note is added; the chain is still consumed.
  else if s.name == some "IE" ∧ s.useFeatures then
    some s
  -- Detect BlackBerry OS version (1704-1711).
  else if ((Re.mk false true true [lits "BlackBerry"]).test pstr ∨
      (Re.mk false true true [lits "BB10"]).test ua) ∧
      (((bbProductRe pstr).capture ua).isSome ∨ s.version.isSome) then
    let d := match (bbProductRe pstr).capture ua with
      | some x => x
      | none => (s.version.getD "").data
    let bb10 := (Re.mk false false false [lits "BB10"]).test ua
    some (if bb10 then
      { s with
        product := none, manufacturer := some "BlackBerry",
        os := some ("BlackBerry " ++ d.asString), version := none }
    else
      { s with os := some ("Device Software " ++ d.asString), version := none })
  else none

/-- `reOpera` (source line 42): `/\bOpera/`. -/
def reOperaRe : Re := Re.mk false true false [lits "Opera"]

/-- The pre-conditions of the Opera identifying/masking branch (source
1714-1722), before the nested parse is consulted.  `top` models
`this != forOwn`; `useFeatures && opera` is always false in the
hostless environment. -/
def operaPre (top : Bool) (ua : LC) (s : Snap) : Bool :=
  let nstr := jsStr s.name
  let ostr := jsStr s.os
  top ∧ s.product ≠ some "Wii" ∧ (
    (containsLit nstr "Opera".data ∧
      (Re.mk true true true [lits "MSIE", lits "Firefox"]).test ua) ∨
    (s.name == some "Firefox" ∧
      (Re.mk false true false [lits "OS X " ++
        [.plus isDigitC, .lit '.', .plus isDigitC, .lit '.']]).test ostr) ∨
    (s.name == some "IE" ∧ (
      (s.os.isSome ∧ !("Win".data.isPrefixOf ostr) ∧ verGT s.version ⟨55, 1⟩) ∨
      ((Re.mk false true true [lits "Windows XP"]).test ostr ∧
        verGT s.version ⟨8, 0⟩) ∨
      (verEq8 s.version ∧ !(Re.mk false true true [lits "Trident"]).test ua))))

/-- The UA of the nested Opera-repair parse (source 1723). -/
def operaArg (ua : LC) : LC := reOperaRe.replace1 ua [] ++ ";".data

/-- Merge the nested Opera-repair record (source 1723-1749): when the
nested description carries no Opera token and the nested name resolved,
the identifying/masking note is pushed and the fields repaired. -/
def applyOpera (s : Snap) (child : Platform) : Snap :=
  let nstr := jsStr s.name
  if !(reOperaRe.test (child.description.getD "").data) ∧ child.name.isSome then
    let dataStr := "ing as " ++ child.name.getD "" ++
      (match child.version with | some v => " " ++ v | none => "")
    if reOperaRe.test nstr then
      let os1 := if (Re.mk false true true [lits "IE"]).test dataStr.data ∧
          s.os == some "Mac OS" then none else s.os
      { s with
        os := os1, layout := some ("Presto", none),
        descParts := s.descParts ++ ["identify" ++ dataStr] }
    else
      let d2 := "mask" ++ dataStr
      let os1 := if (Re.mk false true true [lits "IE"]).test d2.data then none
                 else s.os
      { s with
        name := some "Opera", os := os1,
        version := if !s.useFeatures then none else s.version,
        layout := some ("Presto", none),
        descParts := s.descParts ++ [d2] }
  else s

end PlatformJS

namespace PlatformJS

/-- `data.replace(/\.(\d)$/, '.0$1')` (source 1754). -/
def padSingleFrac (w : LC) : LC :=
  match w.reverse with
  | d :: '.' :: rest =>
      if isDigitC d then rest.reverse ++ ['.', '0', d] else w
  | _ => w

/-- The JavaScriptCore ladder (source 1776). -/
def safariLadder (d : Option NumV) : Sum Nat String :=
  if pfLT d ⟨400, 0⟩ then .inl 1 else if pfLT d ⟨500, 0⟩ then .inl 2
  else if pfLT d ⟨526, 0⟩ then .inl 3 else if pfLT d ⟨533, 0⟩ then .inl 4
  else if pfLT d ⟨534, 0⟩ then .inr "4+" else if pfLT d ⟨535, 0⟩ then .inl 5
  else if pfLT d ⟨537, 0⟩ then .inl 6 else if pfLT d ⟨538, 0⟩ then .inl 7
  else if pfLT d ⟨601, 0⟩ then .inl 8 else if pfLT d ⟨602, 0⟩ then .inl 9
  else if pfLT d ⟨604, 0⟩ then .inl 10 else if pfLT d ⟨606, 0⟩ then .inl 11
  else if pfLT d ⟨608, 0⟩ then .inl 12 else .inr "12"

/-- The Chrome-like ladder (source 1779). -/
def chromeLadder (blink : Bool) (d : Option NumV) : Sum Nat String :=
  if pfLT d ⟨530, 0⟩ then .inl 1 else if pfLT d ⟨532, 0⟩ then .inl 2
  else if pfLT d ⟨53205, 2⟩ then .inl 3 else if pfLT d ⟨533, 0⟩ then .inl 4
  else if pfLT d ⟨53403, 2⟩ then .inl 5 else if pfLT d ⟨53407, 2⟩ then .inl 6
  else if pfLT d ⟨53410, 2⟩ then .inl 7 else if pfLT d ⟨53413, 2⟩ then .inl 8
  else if pfLT d ⟨53416, 2⟩ then .inl 9 else if pfLT d ⟨53424, 2⟩ then .inl 10
  else if pfLT d ⟨53430, 2⟩ then .inl 11 else if pfLT d ⟨53501, 2⟩ then .inl 12
  else if pfLT d ⟨53502, 2⟩ then .inr "13+" else if pfLT d ⟨53507, 2⟩ then .inl 15
  else if pfLT d ⟨53511, 2⟩ then .inl 16 else if pfLT d ⟨53519, 2⟩ then .inl 17
  else if pfLT d ⟨53605, 2⟩ then .inl 18 else if pfLT d ⟨53610, 2⟩ then .inl 19
  else if pfLT d ⟨53701, 2⟩ then .inl 20 else if pfLT d ⟨53711, 2⟩ then .inr "21+"
  else if pfLT d ⟨53713, 2⟩ then .inl 23 else if pfLT d ⟨53718, 2⟩ then .inl 24
  else if pfLT d ⟨53724, 2⟩ then .inl 25 else if pfLT d ⟨53736, 2⟩ then .inl 26
  else if !blink then .inr "27" else .inr "28"

/-- `data += typeof data == 'number' ? '.x' : /[.+]/.test(data) ? '' : '+'`
(source 1782). -/
def renderBucket (b : Sum Nat String) : String :=
  match b with
  | .inl n => toString n ++ ".x"
  | .inr t => t ++ (if t.data.any (fun c => c == '.' || c == '+') then "" else "+")

/-- The bucket before the string conversion (used when `layout` is null
and the append never runs). -/
def rawBucket (b : Sum Nat String) : String :=
  match b with
  | .inl n => toString n
  | .inr t => t

/-- Source lines 1751-1789: WebKit Nightly, incorrect-version clearing,
Blink detection, the like-Safari/like-Chrome qualifiers and the Safari
version approximation. -/
def webkitStage (ua : LC) (s : Snap) : Snap :=
  match (Re.mk true true false
      [lits "AppleWebKit/" ++ [.mark, .plus isDigitDot, .optc '+']]).capture ua with
  | none => s
  | some wt =>
    let d0 := parseFloatJS (padSingleFrac wt)
    let nightly := s.name == some "Safari" ∧ wt.getLast? == some '+'
    let sd :=
      if nightly then
        ({ s with
           name := some "WebKit Nightly", prerelease := some "alpha",
           version := some wt.dropLast.asString }, (none : Option LC))
      else
        let d2 := (Re.mk true true false
          [lits "Safari/" ++ [.mark, .plus isDigitDot, .optc '+']]).capture ua
        if s.version == some wt.asString then
          ({ s with version := none }, none)
        else
          let cmp := match s.version, d2 with
            | none, none => true
            | some v, some x => v.data == x
            | _, _ => false
          if cmp then ({ s with version := none }, d2) else (s, d2)
    let s1 := sd.1
    let data2 := sd.2
    let w1 := (Re.mk true true false
      [lits "HeadlessChrome/" ++ [.mark, .plus isDigitDot],
       lits "Chrome/" ++ [.mark, .plus isDigitDot]]).capture ua
    let blinkCond :=
      (match d0 with | some n => numEqB n ⟨53736, 2⟩ | none => false) &&
      (match data2 with
       | some x => (match jsNumberFull x with
         | some n => numEqB n ⟨53736, 2⟩
         | none => false)
       | none => false) &&
      pfGE (match w1 with | some t => parseFloatJS t | none => none) ⟨28, 0⟩ &&
      layoutEq s1.layout "WebKit"
    let s2 := if blinkCond then { s1 with layout := some ("Blink", none) } else s1
    -- `likeChrome` (source 279-281) in the hostless environment.
    let likeChrome := (Re.mk false true true [lits "Chrome"]).test ua
    let db :=
      if !s2.useFeatures || (!likeChrome ∧ w1 = none) then
        ("like Safari", safariLadder d0)
      else
        ("like Chrome", match w1 with
          | some v => Sum.inr v.asString
          | none => chromeLadder (layoutEq s2.layout "Blink") d0)
    let s3 := match s2.layout with
      | some (bse, _) =>
          { s2 with layout := some (bse, some (db.1 ++ " " ++ renderBucket db.2)) }
      | none => s2
    let dataFinal := if s2.layout.isSome then renderBucket db.2 else rawBucket db.2
    if s3.name == some "Safari" &&
        (s3.version == none || parseIntGT45 (s3.version.getD "")) then
      { s3 with version := some dataFinal }
    else if s3.name == some "Chrome" &&
        (Re.mk true true false [lits "HeadlessChrome"]).test ua then
      { s3 with descParts := "headless" :: s3.descParts }
    else s3

/-- `/\bzbov|zvav$/.exec(os)` (source 1791): a word-bounded `zbov`
anywhere, or `zvav` at the end. -/
def zbovZvavGo (prev : Option Char) : LC → Option String
  | [] => none
  | c :: t =>
      if boundary prev (some c) ∧
          (matchAt false (lits "zbov") (c :: t)).isSome then some "zbov"
      else if (c :: t) = "zvav".data then some "zvav"
      else zbovZvavGo (some c) t

def zbovZvav (o : LC) : Option String := zbovZvavGo none o

/-- Source lines 1791-1818: Opera desktop modes, Chrome desktop mode
and the SRWare Iron version fallback. -/
def operaDesktopStage (ua : LC) (s : Snap) : Snap :=
  let nstr := jsStr s.name
  let ostr := jsStr s.os
  if s.name == some "Opera" ∧ (zbovZvav ostr).isSome then
    let d := (zbovZvav ostr).getD ""
    let s1 := { s with descParts := "desktop mode" :: s.descParts }
    let s2 := if d == "zvav" then
        { s1 with name := some "Opera Mini", version := none }
      else { s1 with name := some "Opera Mobile" }
    { s2 with
      os := s2.os.map (fun o =>
        ((Re.mk false false false
          [[.star (· == ' ')] ++ lits d ++ [atEnd]]).replace1 o.data []).asString) }
  else if s.name == some "Safari" ∧
      (Re.mk false true true [lits "Chrome"]).test
        (match s.layout with
         | some (_, some dd) => dd.data
         | some (_, none) => "undefined".data
         | none => "null".data) then
    let s1 := { s with
      descParts := "desktop mode" :: s.descParts,
      name := some "Chrome Mobile", version := none }
    if (Re.mk false true true [lits "OS X"]).test ostr then
      { s1 with manufacturer := some "Apple", os := some "iOS 4.3+" }
    else { s1 with os := none }
  else if (Re.mk false true true [lits "SRWare Iron"]).test nstr ∧
      s.version = none then
    { s with
      version := (getVersionJS ("Chrome".data.map (fun c => [[PTok.lit c]])) ua).map
        List.asString }
  else s

/-- Source lines 1819-1834: strip incorrect OS versions, strip the
browser name from the OS and add the layout detail to the description. -/
def stripStage (ua : LC) (s : Snap) : Snap :=
  let ostr0 := jsStr s.os
  -- Strip incorrect OS versions (1820-1823).
  let s1 :=
    match s.version with
    | some v =>
      let tr := trailingRun isDigitDot ostr0
      let dStr := if tr = [] then "null".data else tr
      if dStr.isPrefixOf v.data ∧ containsLit ua ('/' :: dStr ++ ['-']) then
        { s with
          os := s.os.map (fun (o : String) =>
            (trimJS (replaceFirstLit o.data dStr [])).asString) }
      else s
    | none => s
  -- Ensure OS does not include the browser name (1825-1827).
  let nstr := jsStr s1.name
  let s2 :=
    match s1.os with
    | some o =>
      if containsLit o.data nstr ∧ !containsLit o.data (nstr ++ " OS".data) then
        { s1 with
          os := some (((Re.mk true false false
            [([.star (· == ' ')] : Pat) ++ qualifyPat nstr ++
              ([.star (· == ' ')] : Pat)]).replace1 o.data []).asString) }
      else s1
    | none => s1
  -- Add layout engine (1829-1834).
  let nstr2 := jsStr s2.name
  match s2.layout with
  | none => s2
  | some (bse, det) =>
    let detStr := match det with
      | some dd => dd.data
      | none => "undefined".data
    if (!(Re.mk false true true [lits "Avant", lits "Nook"]).test nstr2 &&
        ((containsLit nstr2 "Browser".data || containsLit nstr2 "Lunascape".data ||
          containsLit nstr2 "Maxthon".data) ||
         (s2.name != some "Safari" && "iOS".data.isPrefixOf (jsStr s2.os) &&
           (Re.mk false true true [lits "Safari"]).test detStr) ||
         ((["Adobe", "Arora", "Breach", "Midori", "Opera", "Phantom", "Rekonq",
            "Rock", "Samsung Internet", "Sleipnir", "SRWare Iron", "Vivaldi",
            "Web"].any (fun p => p.data.isPrefixOf nstr2)) &&
           (match det with | some x => x != "" | none => false)))) then
      match (match det with
        | some x => if x == "" then none else some x
        | none => some bse) with
      | some x => { s2 with descParts := s2.descParts ++ [x] }
      | none => s2
    else s2

/-- Source lines 1751-1834 in order. -/
def lateStages (ua : LC) (s : Snap) : Snap :=
  stripStage ua (operaDesktopStage ua (webkitStage ua s))

end PlatformJS

namespace PlatformJS

/-- `/\b(?:AMD|IA|Win|WOW|x86_|x)64\b/i` (source 1863). -/
def arch64Re : Re :=
  Re.mk true true true
    [lits "AMD64", lits "IA64", lits "Win64", lits "WOW64",
     lits "x86_64", lits "x64"]

/-- Build the os object (source 1849-1861): detect a trailing
space-separated version run, the special-cased `/ version` form, and
split the family. -/
def mkOSInfo (o : LC) : OSInfo :=
  let run := trailingRun (fun c => isDigitC c || c == '.' || c == '+') o
  let t : Option LC :=
    if run ≠ [] ∧ (o.take (o.length - run.length)).getLast? == some ' ' then
      some (' ' :: run)
    else none
  let special := match t with
    | some tt => decide (tt.length < o.length) &&
        ((o.get? (o.length - tt.length - 1)) == some '/')
    | none => false
  let family := match t with
    | some tt => if !special then replaceFirstLit o tt [] else o
    | none => o
  ⟨32, family.asString, t.map (fun tt => (tt.drop 1).asString), special⟩

/-- `split(' ')[0]`. -/
def firstWord (s : String) : String := (splitFirst " " s.data).asString

/-- `/\b(?:AMD|IA|Win|WOW|x86_|x)64\b/i.exec(arch)` succeeded without a
`i686` token (source 1863): explicit 64-bit evidence in the input. -/
def arch64Evidence (ua : LC) : Bool :=
  (arch64Re.text ua).isSome && !(Re.mk true true true [lits "i686"]).test ua

/-- The fixed Chrome-39-and-above-on-OS-X special case
(source 1876-1881), evaluated on the pre-architecture os object. -/
def chromeMac64 (s : Snap) : Bool :=
  (match s.os.map (fun o => mkOSInfo o.data) with
   | some i => "OS X".data.isPrefixOf i.family.data
   | none => false) && s.name == some "Chrome" &&
    pfGE (pfOfVer s.version) ⟨39, 0⟩

/-- The record's `os` field: the parsed os object with the architecture
detection of source lines 1863-1881 applied. -/
def osArchStage (ua : LC) (s : Snap) : Option OSInfo :=
  let os0 := s.os.map (fun o => mkOSInfo o.data)
  if arch64Evidence ua then
    os0.map (fun i =>
      { i with
        architecture := 64,
        family := ((Re.mk false false false
          [([.star (· == ' ')] : Pat) ++
            ((arch64Re.text ua).getD []).map PTok.lit]).replace1
            i.family.data []).asString })
  else if chromeMac64 s then
    os0.map (fun i => { i with architecture := 64 })
  else os0

/-- The description segments of source lines 1837-1847: the
parenthesized auxiliary notes, the manufacturer note and the product. -/
def descD3 (s : Snap) : List String :=
  -- Combine contextual information (1837-1839).
  let d1 : List String :=
    if s.descParts ≠ [] then
      ["(" ++ String.intercalate "; " s.descParts ++ ")"]
    else []
  -- Append manufacturer to description (1841-1843).
  let d2 := d1 ++ (match s.manufacturer, s.product with
    | some m, some p => if !(containsLit p.data m.data) then ["on " ++ m] else []
    | _, _ => [])
  -- Append product to description (1845-1847).
  d2 ++ (match s.product with
    | some p => [(if "on ".data.isPrefixOf (match d2.getLast? with
        | some x => x.data
        | none => "undefined".data) then "" else "on ") ++ p]
    | none => [])

/-- The full description segment list in the order the source joins it:
the 32-bit note (1863-1881), the name and version (2029-2034) and the
OS segment (2035-2037) around `descD3`. -/
def descAll (ua : LC) (s : Snap) : List String :=
  let d4 :=
    if arch64Evidence ua ∧ s.name.isSome ∧
        (Re.mk true true true [lits "WOW64"]).test ua then
      "32-bit" :: descD3 s
    else descD3 s
  let d5 := (match s.name with | some n => [n] | none => []) ++
    (match s.name, s.version with | some _, some v => [v] | _, _ => []) ++ d4
  d5 ++ (match osArchStage ua s, s.name with
    | some i, some n =>
      let osR := osInfoRender i
      if !(osR == firstWord osR && (osR == firstWord n || s.product.isSome)) then
        [if s.product.isSome then "(" ++ osR ++ ")" else "on " ++ osR]
      else []
    | _, _ => [])

/-- Source lines 1836-2041: description grouping, the manufacturer and
product notes, the os object, architecture detection, and the final
record with its composed description. -/
def finalizeStage (ua : LC) (s : Snap) : Platform :=
  let os1 := osArchStage ua s
  -- `ua || (ua = null)` (1883).
  let uaField := if ua = [] then none else some ua.asString
  let d6 := descAll ua s
  { description := if d6 = [] then uaField else some (String.intercalate " " d6),
    layout := s.layout.map (·.1),
    manufacturer := s.manufacturer,
    name := s.name,
    prerelease := s.prerelease,
    product := s.product,
    ua := uaField,
    version := (match s.name with | some _ => s.version | none => none),
    os := os1 }

/-- One unrolling of `parse`: the pure pipeline around the two
recursive call sites (the IE Mobile 11 re-parse at source 1477-1481 and
the Opera identifying/masking repair at 1712-1749), with the nested
invocations supplied by `rec`.  The second component counts the longest
chain of nested parse calls. -/
def snapStep (rec : Bool → LC → Platform × Nat) (top : Bool) (ua : LC) :
    Snap × Nat :=
  let s1 := preStage ua
  let a : Snap × Nat :=
    if ieCond ua s1 then
      let c := rec true (ieArg ua)
      (applyIE s1 c.1, c.2 + 1)
    else (chainAelse ua s1, 0)
  let s2 := midStage ua a.1
  let b : Snap × Nat :=
    match chainBApply ua s2 with
    | some sb => (sb, 0)
    | none =>
      if operaPre top ua s2 then
        let c := rec false (operaArg ua)
        (applyOpera s2 c.1, c.2 + 1)
      else (s2, 0)
  (lateStages ua b.1, max a.2 b.2)

def parseStep (rec : Bool → LC → Platform × Nat) (top : Bool) (ua : LC) :
    Platform × Nat :=
  let r := snapStep rec top ua
  (finalizeStage ua r.1, r.2)

/-- `parse`, fueled: fuel `0` yields the record of an empty snapshot
(never reached from the canonical fuel, see `parseCore_fuel_stable`). -/
def parseCore : Nat → Bool → LC → Platform × Nat
  | 0, _, ua => (finalizeStage ua { emptySnap with useFeatures := ua == [] }, 0)
  | f + 1, top, ua => parseStep (parseCore f) top ua

/-- The canonical fuel: sufficient for every input (proved below). -/
def fuelBound (top : Bool) (n : Nat) : Nat := n + (if top then 3 else 1)

/-- `parse(ua)` on a string input in the hostless environment. -/
def parsePlatform (ua : LC) : Platform := (parseCore (ua.length + 3) true ua).1

/-- The longest chain of nested parse calls triggered by one top-level
call. -/
def parseDepth (ua : LC) : Nat := (parseCore (ua.length + 3) true ua).2

/-- The final pipeline snapshot of a top-level parse, before the record
is assembled. -/
def parseSnap (ua : LC) : Snap :=
  (snapStep (parseCore (ua.length + 2)) true ua).1

/-- `parse` with the argument juggling of source 253-273: a missing
argument falls back to the ambient `userAgent`, which is empty in the
hostless environment. -/
def parseInput (o : Option String) : Platform :=
  parsePlatform (o.getD "").data

end PlatformJS

namespace PlatformJS

/-! ### General lemmas about the first-match scan -/

lemma foldl_orElse_some {α β : Type} (f : α → Option β) (l : List α) (b : β) :
    l.foldl (fun acc g => acc.orElse (fun _ => f g)) (some b) = some b := by
  induction l with
  | nil => rfl
  | cons a t ih => simpa [Option.orElse] using ih

lemma firstSome_eq_findSome {α β : Type} (f : α → Option β) (l : List α) :
    firstSome f l = l.findSome? f := by
  induction l with
  | nil => rfl
  | cons a t ih =>
    unfold firstSome reduceJS at *
    cases h : f a with
    | some b =>
      simp only [List.foldl_cons, List.findSome?_cons, h, Option.orElse]
      exact foldl_orElse_some f t b
    | none =>
      simpa [List.findSome?_cons, h, Option.orElse] using ih

lemma firstSome_append_first {α β : Type} (f : α → Option β)
    (l₁ l₂ : List α) (a : α) (b : β)
    (h₁ : ∀ x ∈ l₁, f x = none) (h₂ : f a = some b) :
    firstSome f (l₁ ++ a :: l₂) = some b := by
  rw [firstSome_eq_findSome]
  induction l₁ with
  | nil => simp [List.findSome?_cons, h₂]
  | cons x t ih =>
    have hx : f x = none := h₁ x (List.mem_cons_self x t)
    simpa [List.findSome?_cons, hx] using
      ih (fun y hy => h₁ y (List.mem_cons_of_mem x hy))

end PlatformJS

namespace PlatformJS

set_option maxRecDepth 1000000

/-- C1: for every pattern axis the scan is first-match-wins by declared
list position: the generic `reduce`-based scanner equals `findSome?`
over the ordered list (so the result always derives from the earliest
matching entry, never a later one, regardless of match length or
specificity), and each of the five axis matchers is exactly such a scan
of its table.  (The claim's further statement that the returned value
is always the entry's *label* is refuted separately: the OS axis
returns a normalization of the matched text.) -/
theorem C1_first_match_scan :
    (∀ {α β : Type} (f : α → Option β) (l : List α),
        firstSome f l = l.findSome? f) ∧
    (∀ {α β : Type} (f : α → Option β) (l₁ l₂ : List α) (a : α) (b : β),
        (∀ x ∈ l₁, f x = none) → f a = some b →
        firstSome f (l₁ ++ a :: l₂) = some b) ∧
    (∀ ua : LC,
      getLayoutJS ua = layoutGuesses.findSome? (nameEntry ua) ∧
      getNameJS ua = nameGuesses.findSome? (nameEntry ua) ∧
      getOSJS ua = osGuesses.findSome? (osEntry ua) ∧
      getProductJS productGuesses ua = productGuesses.findSome? (productEntry ua) ∧
      ∀ p, getManufacturerJS p ua = manufacturerTable.findSome? (manuEntry p ua)) :=
  ⟨fun f l => firstSome_eq_findSome f l,
   fun f l₁ l₂ a b h₁ h₂ => firstSome_append_first f l₁ l₂ a b h₁ h₂,
   fun ua =>
     ⟨firstSome_eq_findSome _ _, firstSome_eq_findSome _ _,
      firstSome_eq_findSome _ _, firstSome_eq_findSome _ _,
      fun p => firstSome_eq_findSome _ _⟩⟩

/-- C1 witness: on `"Opera MSIE"` no entry before the `Opera` entry
(position 40) of the name table matches, the `Opera` entry does, and
the scan of the table split around that position returns its label. -/
theorem C1_first_match_scan_witness :
    firstSome (nameEntry "Opera MSIE".data)
      (nameGuesses.take 40 ++ gs "Opera" :: nameGuesses.drop 41) = some "Opera" :=
  C1_first_match_scan.2.1 (nameEntry "Opera MSIE".data) (nameGuesses.take 40)
    (nameGuesses.drop 41) (gs "Opera") "Opera" (by decide) (by decide)

/-- C1 counterexample: on the OS axis the matcher does not return the
matching entry's label: `"Windows NT 6.1"` resolves to the cleaned-up
string `"Windows Server 2008 R2 / 7"`, which is no OS entry's label. -/
theorem C1_counterexample :
    getOSJS "Windows NT 6.1".data = some "Windows Server 2008 R2 / 7".data ∧
    ∀ g ∈ osGuesses, g.label ≠ "Windows Server 2008 R2 / 7" := by
  decide

end PlatformJS

namespace PlatformJS

set_option maxRecDepth 1000000

/-- C2: parse is total: the embedding is a total function, a missing
argument behaves as the empty string, and for empty input the record
has a null name, an unresolved os whose stub renders to the literal
string `"null"`, and the record renders to the empty string (the
description field itself is null and renders as `""`). -/
theorem C2_total_empty_input :
    (∀ ua : LC, ∃ p : Platform, parsePlatform ua = p) ∧
    parseInput none = parseInput (some "") ∧
    (parsePlatform "".data).name = none ∧
    (parsePlatform "".data).os = none ∧
    osFieldRender (parsePlatform "".data).os = "null" ∧
    renderPlatform (parsePlatform "".data) = "" := by
  refine ⟨fun ua => ⟨_, rfl⟩, rfl, ?_, ?_, ?_, ?_⟩ <;> decide

/-- The record built by a top-level parse is the finalization of its
pipeline snapshot. -/
lemma parsePlatform_eq (ua : LC) :
    parsePlatform ua = finalizeStage ua (parseSnap ua) := rfl

/-- A fully-unresolved example input, evaluated once. -/
lemma eval_zzz : parsePlatform "zzz".data =
    { description := some "zzz", layout := none, manufacturer := none,
      name := none, prerelease := none, product := none, ua := some "zzz",
      version := none, os := none } := by decide

/-- C3: the record's version is null whenever its name is null (the
source computes `platform.version = name && version`). -/
theorem C3_version_null_when_name_null (ua : LC)
    (h : (parsePlatform ua).name = none) :
    (parsePlatform ua).version = none := by
  have h1 : (parsePlatform ua).name = (parseSnap ua).name := rfl
  have h2 : (parsePlatform ua).version =
      (match (parseSnap ua).name with
       | some _ => (parseSnap ua).version
       | none => none) := rfl
  rw [h1] at h
  rw [h2, h]

/-- C3 witness at the unresolved input `"zzz"`. -/
theorem C3_version_null_witness :
    (parsePlatform "zzz".data).name = none ∧
    (parsePlatform "zzz".data).version = none :=
  ⟨by rw [eval_zzz], C3_version_null_when_name_null "zzz".data (by rw [eval_zzz])⟩

/-- The architecture as recorded: null on the unresolved stub. -/
def osArchField (p : Platform) : Option Nat := p.os.map (·.architecture)

/-- C4 counterexample: on an input resolving no OS the record's
`os.architecture` is null — neither 32 nor 64, so a third value does
appear in the field. -/
theorem C4_counterexample :
    osArchField (parsePlatform "zzz".data) = none ∧
    osArchField (parsePlatform "zzz".data) ≠ some 32 ∧
    osArchField (parsePlatform "zzz".data) ≠ some 64 := by
  rw [osArchField, eval_zzz]
  exact ⟨rfl, by decide, by decide⟩

end PlatformJS

namespace PlatformJS

set_option maxRecDepth 1000000

/-- The Windows-dual-name example input, evaluated once. -/
lemma eval_win : parsePlatform "Windows NT 6.1".data =
    { description := some "Windows NT 6.1", layout := none,
      manufacturer := none, name := none, prerelease := none, product := none,
      ua := some "Windows NT 6.1", version := none,
      os := some { architecture := 32, family := "Windows Server 2008 R2 / 7",
                   version := some "7", special := true } } := by decide

/-- C4 (amended): when no OS is resolved the architecture field is
null; when an OS is resolved it is 32 or 64, and it is 64 exactly when
explicit 64-bit evidence is present in the input (a 64-bit token
without `i686`) or the fixed Chrome-39-on-OS-X special case applies. -/
theorem C4_architecture_values (ua : LC) :
    ((parsePlatform ua).os = none → osArchField (parsePlatform ua) = none) ∧
    (∀ i, (parsePlatform ua).os = some i →
      i.architecture = 32 ∨ i.architecture = 64) ∧
    (∀ i, (parsePlatform ua).os = some i →
      (i.architecture = 64 ↔
        (arch64Evidence ua = true ∨ chromeMac64 (parseSnap ua) = true))) := by
  have hos : (parsePlatform ua).os = osArchStage ua (parseSnap ua) := rfl
  refine ⟨fun h => by simp [osArchField, h], ?_, ?_⟩
  · intro i hi
    rw [hos] at hi
    unfold osArchStage at hi
    by_cases he : arch64Evidence ua = true
    · simp only [he, if_true, Option.map_map, Option.map_eq_some'] at hi
      obtain ⟨o, _, rfl⟩ := hi
      right; rfl
    · by_cases hc : chromeMac64 (parseSnap ua) = true
      · simp only [he, hc, if_true, if_false, Bool.false_eq_true,
          Option.map_map, Option.map_eq_some'] at hi
        obtain ⟨o, _, rfl⟩ := hi
        right; rfl
      · simp only [he, hc, if_false, Bool.false_eq_true,
          Option.map_eq_some'] at hi
        obtain ⟨o, _, rfl⟩ := hi
        left; rfl
  · intro i hi
    rw [hos] at hi
    unfold osArchStage at hi
    by_cases he : arch64Evidence ua = true
    · simp only [he, if_true, Option.map_map, Option.map_eq_some'] at hi
      obtain ⟨o, _, rfl⟩ := hi
      simp [he]
    · by_cases hc : chromeMac64 (parseSnap ua) = true
      · simp only [he, hc, if_true, if_false, Bool.false_eq_true,
          Option.map_map, Option.map_eq_some'] at hi
        obtain ⟨o, _, rfl⟩ := hi
        simp [hc]
      · simp only [he, hc, if_false, Bool.false_eq_true,
          Option.map_eq_some'] at hi
        obtain ⟨o, _, rfl⟩ := hi
        have h32 : (mkOSInfo o.data).architecture = 32 := rfl
        rw [h32]
        simp [he, hc]

/-- C4 witness: the resolved-OS example `"Windows NT 6.1"` takes the
32-or-64 disjunction. -/
theorem C4_architecture_values_witness :
    (parsePlatform "Windows NT 6.1".data).os =
      some ⟨32, "Windows Server 2008 R2 / 7", some "7", true⟩ ∧
    ((32 : Nat) = 32 ∨ (32 : Nat) = 64) :=
  ⟨by rw [eval_win],
   (C4_architecture_values "Windows NT 6.1".data).2.1
     ⟨32, "Windows Server 2008 R2 / 7", some "7", true⟩ (by rw [eval_win])⟩

end PlatformJS

namespace PlatformJS

set_option maxRecDepth 1000000
set_option maxHeartbeats 4000000

/-! ### Fuel stabilization: the recursion of `parse` terminates -/

lemma matchAt_lits_isPrefixOf (l : LC) : ∀ (t : LC) (r : Nat × Option Nat),
    matchAt false (l.map PTok.lit) t = some r → l.isPrefixOf t := by
  induction l with
  | nil => intro t r _; simp [List.isPrefixOf]
  | cons c cs ih =>
    intro t r h
    cases t with
    | nil => simp [matchAt] at h
    | cons d ds =>
      simp only [List.map_cons, matchAt] at h
      by_cases hd : litMatch false c d
      · rw [if_pos hd] at h
        have hcd : c = d := by
          have := hd
          simp [litMatch] at this
          exact this
        cases hm : matchAt false (cs.map PTok.lit) ds with
        | none => rw [hm] at h; simp at h
        | some r2 =>
          subst hcd
          simp only [List.isPrefixOf, beq_self_eq_true, Bool.true_and]
          exact ih ds r2 hm
      · rw [if_neg hd] at h; simp at h

lemma tryHere_lits_isPrefixOf (w1 w2 : Bool) (p : String) (prev : Option Char)
    (t : LC) (r : Nat × Option Nat)
    (h : tryHere false w1 w2 [lits p] prev t = some r) : p.data.isPrefixOf t := by
  unfold tryHere at h
  split at h
  · exact absurd h (by simp)
  · simp only [List.findSome?_cons, List.findSome?_nil] at h
    cases hm : matchAt false (lits p) t with
    | none => rw [hm] at h; simp at h
    | some r2 => exact matchAt_lits_isPrefixOf p.data t r2 hm

lemma searchGo_lits_contains (w1 w2 : Bool) (p : String) :
    ∀ (t : LC) (prev : Option Char) (pos : Nat) (r : Nat × Nat × Option Nat),
    searchGo false w1 w2 [lits p] prev pos t = some r →
    containsLit t p.data := by
  intro t
  induction t with
  | nil =>
    intro prev pos r h
    unfold searchGo at h
    cases hth : tryHere false w1 w2 [lits p] prev [] with
    | none => rw [hth] at h; simp at h
    | some r2 =>
      have := tryHere_lits_isPrefixOf w1 w2 p prev [] r2 hth
      cases hp : p.data with
      | nil => simp [containsLit, indexOfLit, hp]
      | cons c cs => rw [hp] at this; simp [List.isPrefixOf] at this
  | cons c ts ih =>
    intro prev pos r h
    unfold searchGo at h
    cases hth : tryHere false w1 w2 [lits p] prev (c :: ts) with
    | none =>
      rw [hth] at h
      have hc := ih (some c) (pos + 1) r h
      simp only [containsLit, indexOfLit] at hc ⊢
      split
      · simp
      · cases hi : indexOfLit p.data ts with
        | none => rw [hi] at hc; simp at hc
        | some i => simp [hi]
    | some r2 =>
      have hpre := tryHere_lits_isPrefixOf w1 w2 p prev (c :: ts) r2 hth
      simp only [containsLit, indexOfLit]
      split
      · simp
      · rename_i hnp
        exact absurd hpre (by simpa using hnp)

lemma test_lits_contains (w1 w2 : Bool) (p : String) (s : LC)
    (h : (Re.mk false w1 w2 [lits p]).test s = true) : containsLit s p.data := by
  unfold Re.test Re.search at h
  cases hs : searchGo false w1 w2 [lits p] none 0 s with
  | none => rw [hs] at h; simp at h
  | some r => exact searchGo_lits_contains w1 w2 p s none 0 r hs

lemma indexOfLit_bound (pat : LC) :
    ∀ (s : LC) (i : Nat), indexOfLit pat s = some i → i + pat.length ≤ s.length := by
  intro s
  induction s with
  | nil =>
    intro i h
    unfold indexOfLit at h
    split at h
    · rename_i hp
      simp at h
      subst h
      simp [hp]
    · simp at h
  | cons c t ih =>
    intro i h
    unfold indexOfLit at h
    split at h
    · rename_i hp
      simp at h
      subst h
      have := List.IsPrefix.length_le (List.isPrefixOf_iff_prefix.mp hp)
      simpa using this
    · cases hi : indexOfLit pat t with
      | none => rw [hi] at h; simp at h
      | some j =>
        rw [hi] at h
        simp at h
        subst h
        have := ih j hi
        simp only [List.length_cons]
        omega

lemma replaceFirstLit_length_of_contains (s pat : LC)
    (h : containsLit s pat = true) :
    (replaceFirstLit s pat []).length + pat.length = s.length := by
  unfold containsLit at h
  cases hi : indexOfLit pat s with
  | none => rw [hi] at h; simp at h
  | some i =>
    have hb := indexOfLit_bound pat s i hi
    unfold replaceFirstLit
    rw [hi]
    simp only [List.append_nil, List.length_append, List.length_take, List.length_drop]
    omega

lemma replace1_nil_length_le (r : Re) (s : LC) :
    (r.replace1 s []).length ≤ s.length := by
  unfold Re.replace1
  cases h : r.search s with
  | none => exact le_refl _
  | some t =>
    obtain ⟨st, n, k⟩ := t
    simp only [List.append_nil, List.length_append, List.length_take,
      List.length_drop]
    omega

lemma operaArg_length (ua : LC) : (operaArg ua).length ≤ ua.length + 1 := by
  unfold operaArg
  rw [List.length_append]
  have := replace1_nil_length_le reOperaRe ua
  simp only [List.length_cons, List.length_nil]
  omega

lemma ieArg_length (ua : LC) (s : Snap) (h : ieCond ua s = true) :
    (ieArg ua).length + 14 = ua.length := by
  unfold ieCond at h
  simp only [Bool.decide_and, Bool.and_eq_true, decide_eq_true_eq] at h
  have hc := test_lits_contains true true "like iPhone OS" ua h.2
  exact replaceFirstLit_length_of_contains ua "like iPhone OS".data hc

lemma operaPre_false (ua : LC) (s : Snap) : operaPre false ua s = false := by
  unfold operaPre
  simp

lemma snapStep_congr (r1 r2 : Bool → LC → Platform × Nat) (top : Bool)
    (ua : LC)
    (hIE : ieCond ua (preStage ua) = true →
      r1 true (ieArg ua) = r2 true (ieArg ua))
    (hOp : top = true → r1 false (operaArg ua) = r2 false (operaArg ua)) :
    snapStep r1 top ua = snapStep r2 top ua := by
  unfold snapStep
  by_cases h1 : ieCond ua (preStage ua) = true
  · rw [hIE h1]
    cases top with
    | false => simp [operaPre_false]
    | true => rw [hOp rfl]
  · simp only [if_neg h1]
    cases top with
    | false => simp [operaPre_false]
    | true => rw [hOp rfl]

lemma parseStep_congr (r1 r2 : Bool → LC → Platform × Nat) (top : Bool)
    (ua : LC)
    (hIE : ieCond ua (preStage ua) = true →
      r1 true (ieArg ua) = r2 true (ieArg ua))
    (hOp : top = true → r1 false (operaArg ua) = r2 false (operaArg ua)) :
    parseStep r1 top ua = parseStep r2 top ua := by
  unfold parseStep
  rw [snapStep_congr r1 r2 top ua hIE hOp]

lemma parseCore_succ (f : Nat) : ∀ (top : Bool) (ua : LC),
    fuelBound top ua.length ≤ f →
    parseCore (f + 1) top ua = parseCore f top ua := by
  induction f using Nat.strong_induction_on with
  | _ f ih =>
    intro top ua hf
    have hf1 : 1 ≤ f := by
      unfold fuelBound at hf
      cases top <;> simp at hf <;> omega
    obtain ⟨g, rfl⟩ : ∃ g, f = g + 1 := ⟨f - 1, by omega⟩
    show parseStep (parseCore (g + 1)) top ua = parseStep (parseCore g) top ua
    apply parseStep_congr
    · intro hc
      have hlen := ieArg_length ua (preStage ua) hc
      apply ih g (by omega) true (ieArg ua)
      unfold fuelBound at hf ⊢
      cases top <;> simp at hf ⊢ <;> omega
    · intro htop
      subst htop
      have hlen := operaArg_length ua
      apply ih g (by omega) false (operaArg ua)
      unfold fuelBound at hf ⊢
      simp at hf ⊢
      omega

lemma parseCore_stable (f : Nat) (top : Bool) (ua : LC)
    (hf : fuelBound top ua.length ≤ f) :
    parseCore f top ua = parseCore (fuelBound top ua.length) top ua := by
  induction f with
  | zero =>
    have h0 : fuelBound top ua.length = 0 := Nat.le_zero.mp hf
    rw [h0]
  | succ g ihg =>
    rcases Nat.lt_or_ge g (fuelBound top ua.length) with hlt | hge
    · have he : fuelBound top ua.length = g + 1 := by omega
      rw [he]
    · rw [parseCore_succ g top ua hge]
      exact ihg hge

lemma snapStep_depth_le (rec : Bool → LC → Platform × Nat) (top : Bool)
    (ua : LC) (K : Nat) (hrec : ∀ t u, (rec t u).2 ≤ K) :
    (snapStep rec top ua).2 ≤ K + 1 := by
  unfold snapStep
  dsimp only
  have h1 := hrec true (ieArg ua)
  have h2 := hrec false (operaArg ua)
  by_cases hie : ieCond ua (preStage ua) = true
  · simp only [if_pos hie]
    refine sup_le ?_ ?_
    · show (rec true (ieArg ua)).2 + 1 ≤ K + 1
      omega
    · split
      · show (0 : Nat) ≤ K + 1
        omega
      · split
        · show (rec false (operaArg ua)).2 + 1 ≤ K + 1
          omega
        · show (0 : Nat) ≤ K + 1
          omega
  · simp only [if_neg hie]
    refine sup_le ?_ ?_
    · show (0 : Nat) ≤ K + 1
      omega
    · split
      · show (0 : Nat) ≤ K + 1
        omega
      · split
        · show (rec false (operaArg ua)).2 + 1 ≤ K + 1
          omega
        · show (0 : Nat) ≤ K + 1
          omega

lemma parseCore_depth_le (f : Nat) : ∀ (top : Bool) (ua : LC),
    (parseCore f top ua).2 ≤ f := by
  induction f with
  | zero => intro top ua; simp [parseCore]
  | succ g ihg =>
    intro top ua
    show (parseStep (parseCore g) top ua).2 ≤ g + 1
    unfold parseStep
    dsimp only
    exact snapStep_depth_le (parseCore g) top ua g (fun t u => ihg t u)

/-- C5: the parse pipeline terminates on every input — beyond the
canonical fuel `fuelBound`, adding fuel never changes the result — and
the chain of nested self-invocations is finite, bounded by the fuel.
The spec's stronger bound of exactly one extra level is refuted by
`C5_counterexample`. -/
theorem C5_recursion_bounded :
    (∀ (f : Nat) (top : Bool) (ua : LC), fuelBound top ua.length ≤ f →
      parseCore f top ua = parseCore (fuelBound top ua.length) top ua) ∧
    (∀ ua : LC, parseDepth ua ≤ ua.length + 3) :=
  ⟨fun f top ua hf => parseCore_stable f top ua hf,
   fun ua => parseCore_depth_le (ua.length + 3) true ua⟩

/-- C5 witness: stabilization and the depth bound at a concrete input. -/
theorem C5_recursion_bounded_witness :
    fuelBound true ("abc".data.length) ≤ 10 ∧
    parseCore 10 true "abc".data =
      parseCore (fuelBound true "abc".data.length) true "abc".data ∧
    parseDepth "abc".data ≤ "abc".data.length + 3 :=
  ⟨by decide, C5_recursion_bounded.1 10 true "abc".data (by decide),
    C5_recursion_bounded.2 "abc".data⟩

/-- C5 counterexample: one top-level parse of this string triggers a
chain of two nested parse calls (the IE Mobile 11 re-parse fires again
inside the re-parsed call), refuting the depth-exactly-one claim. -/
theorem C5_counterexample :
    parseDepth "MSIE like iPhone OS like iPhone OS".data = 2 := by decide

/-! ### Substring facts about `containsLit` and the joined description -/

lemma osArchStage_family (ua : LC) (s : Snap) (h : arch64Evidence ua = false) :
    (osArchStage ua s).map OSInfo.family =
      s.os.map (fun o => (mkOSInfo o.data).family) := by
  unfold osArchStage
  dsimp only
  rw [if_neg (by simp [h])]
  by_cases hc : chromeMac64 s = true
  · rw [if_pos hc]
    cases hx : s.os with
    | none => rfl
    | some o => rfl
  · rw [if_neg hc]
    cases hx : s.os with
    | none => rfl
    | some o => rfl

/-- C8: a Windows platform token whose trailing kernel version is `6.1`
is rewritten by the os cleanup to the exact joined dual marketing name,
and a final snapshot holding that dual name surfaces it verbatim as the
record's `os.family` when no 64-bit evidence rewrites the family.  The
per-string universal claim is refuted by `C8_counterexample`. -/
theorem C8_windows_dual_name :
    (∀ s : LC, startsWithCI "Win" s = true →
      startsWithCI "Windows Phone " s = false →
      trailingRun isDigitDot s = "6.1".data →
      cleanupOS s (gs "Windows ").pats "Windows " =
        "Windows Server 2008 R2 / 7".data) ∧
    (∀ ua : LC, (parseSnap ua).os = some "Windows Server 2008 R2 / 7" →
      arch64Evidence ua = false →
      ((parsePlatform ua).os).map OSInfo.family =
        some "Windows Server 2008 R2 / 7") := by
  constructor
  · intro s h1 h2 h3
    unfold cleanupOS
    dsimp only
    rw [h3]
    rw [if_pos ⟨h1, by simp [h2], by decide⟩]
    decide
  · intro ua hos harch
    have h1 : (parsePlatform ua).os = osArchStage ua (parseSnap ua) := rfl
    rw [h1, osArchStage_family _ _ harch, hos]
    decide

/-- C8 witness: the dual name end to end on the bare Windows 7 token. -/
theorem C8_windows_dual_name_witness :
    cleanupOS "Windows NT 6.1".data (gs "Windows ").pats "Windows " =
      "Windows Server 2008 R2 / 7".data ∧
    ((parsePlatform "Windows NT 6.1".data).os).map OSInfo.family =
      some "Windows Server 2008 R2 / 7" :=
  ⟨C8_windows_dual_name.1 "Windows NT 6.1".data (by decide) (by decide)
    (by decide),
   C8_windows_dual_name.2 "Windows NT 6.1".data (by decide) (by decide)⟩

/-- C8 counterexample: this string contains a Windows token ending in
the kernel version `6.1`, yet the os axis resolves Android (listed
earlier), so the record's family is not the dual name. -/
theorem C8_counterexample :
    containsLit "Android; Windows NT 6.1".data "Windows NT 6.1".data = true ∧
    trailingRun isDigitDot "Windows NT 6.1".data = "6.1".data ∧
    ((parsePlatform "Android; Windows NT 6.1".data).os).map OSInfo.family =
      some "Android" ∧
    ((parsePlatform "Android; Windows NT 6.1".data).os).map OSInfo.family ≠
      some "Windows Server 2008 R2 / 7" := by
  have h : ((parsePlatform "Android; Windows NT 6.1".data).os).map
      OSInfo.family = some "Android" := by decide
  exact ⟨by decide, by decide, h, by rw [h]; simp⟩

lemma osArchStage_none (ua : LC) (s : Snap) (h : s.os = none) :
    osArchStage ua s = none := by
  unfold osArchStage
  dsimp only
  rw [h]
  split
  · simp
  · split
    · simp
    · simp

lemma descD3_nil (s : Snap) (hp : s.product = none) (hm : s.manufacturer = none)
    (hd : s.descParts = []) : descD3 s = [] := by
  unfold descD3
  dsimp only
  simp [hd, hm, hp]

lemma descAll_nil (ua : LC) (s : Snap) (hn : s.name = none)
    (hp : s.product = none) (hm : s.manufacturer = none) (ho : s.os = none)
    (hd : s.descParts = []) : descAll ua s = [] := by
  have h3 := descD3_nil s hp hm hd
  have hoa := osArchStage_none ua s ho
  unfold descAll
  dsimp only
  simp [h3, hn, hoa]

/-- C9: on a non-empty input on which no component resolved — every
snapshot field null and no auxiliary note — the record's description is
the raw input string itself. -/
theorem C9_raw_description (ua : LC) (hne : ua ≠ [])
    (hn : (parseSnap ua).name = none)
    (hv : (parseSnap ua).version = none)
    (hl : (parseSnap ua).layout = none)
    (hp : (parseSnap ua).product = none)
    (hm : (parseSnap ua).manufacturer = none)
    (ho : (parseSnap ua).os = none)
    (hd : (parseSnap ua).descParts = []) :
    (parsePlatform ua).description = some ua.asString := by
  rw [parsePlatform_eq]
  have hdesc : (finalizeStage ua (parseSnap ua)).description =
      if descAll ua (parseSnap ua) = [] then
        (if ua = [] then none else some ua.asString)
      else some (String.intercalate " " (descAll ua (parseSnap ua))) := rfl
  rw [hdesc, if_pos (descAll_nil ua _ hn hp hm ho hd), if_neg hne]

/-- C9 witness: a string resolving nothing is echoed back. -/
theorem C9_raw_description_witness :
    "zzz".data ≠ ([] : LC) ∧
    (parsePlatform "zzz".data).description = some "zzz" :=
  ⟨by decide,
   C9_raw_description "zzz".data (by decide) (by decide) (by decide) (by decide)
     (by decide) (by decide) (by decide) (by decide)⟩

lemma mkOSInfo_special_version (o : String)
    (hsp : (mkOSInfo o.data).special = true) :
    (mkOSInfo o.data).version.isSome = true := by
  unfold mkOSInfo at hsp ⊢
  dsimp only at hsp ⊢
  split at hsp
  · rename_i tt heq
    rw [heq]
    simp
  · simp at hsp

lemma osArchStage_special_version (ua : LC) (s : Snap) (i : OSInfo)
    (h : osArchStage ua s = some i) (hs : i.special = true) :
    i.version.isSome = true := by
  unfold osArchStage at h
  dsimp only at h
  split at h
  · rcases Option.map_eq_some'.mp h with ⟨j, hj, rfl⟩
    rcases Option.map_eq_some'.mp hj with ⟨o, ho, rfl⟩
    exact mkOSInfo_special_version o hs
  · split at h
    · rcases Option.map_eq_some'.mp h with ⟨j, hj, rfl⟩
      rcases Option.map_eq_some'.mp hj with ⟨o, ho, rfl⟩
      exact mkOSInfo_special_version o hs
    · rcases Option.map_eq_some'.mp h with ⟨o, ho, rfl⟩
      exact mkOSInfo_special_version o hs

/-- C10: the rendering of a resolved os object is the family, then a
space and the version exactly when a version is present and the os is
not the special-cased `/ version` form, then ` 64-bit` exactly when the
architecture is 64; and a special-cased os always carries a version. -/
theorem C10_os_render (ua : LC) (i : OSInfo)
    (h : (parsePlatform ua).os = some i) :
    osInfoRender i = i.family ++
      (match i.version with
       | some v => if i.special = false then " " ++ v else ""
       | none => "") ++
      (if i.architecture = 64 then " 64-bit" else "") ∧
    (i.special = true → i.version.isSome = true) := by
  constructor
  · cases hv : i.version <;> cases hs : i.special <;>
      simp [osInfoRender, hv, hs, beq_iff_eq]
  · intro hs
    have hosa : (parsePlatform ua).os = osArchStage ua (parseSnap ua) := rfl
    rw [hosa] at h
    exact osArchStage_special_version ua (parseSnap ua) i h hs

/-- C10 witness: the special-cased Windows 7 dual name renders without
repeating its version. -/
theorem C10_os_render_witness :
    osInfoRender ⟨32, "Windows Server 2008 R2 / 7", some "7", true⟩ =
      "Windows Server 2008 R2 / 7" ++ "" ++ "" ∧
    ((true : Bool) = true → (some "7").isSome = true) := by
  have h : (parsePlatform "Windows NT 6.1".data).os =
      some ⟨32, "Windows Server 2008 R2 / 7", some "7", true⟩ := by
    rw [eval_win]
  exact C10_os_render "Windows NT 6.1".data _ h

end PlatformJS
